import Mathlib

/-!
# Remotier native capture host

A shallow embedding of `src/Native/DXGIManager.cpp`, `src/Native/WICEncoder.cpp` and
`src/Native/NativeHost.cpp`.

* The three file-scope globals of `NativeHost.cpp` (`g_Capture`, `g_Encoder`, `g_Buffer`)
  become the fields of `Session`; every exported function is a function on `Session`.
* The program talks to Direct3D / DXGI / WIC / COM.  Each call it makes to the platform is
  recorded as an `Event`, and what the platform answers is a parameter of the embedded
  function (`DXGIPlatform`, `WICPlatform`, `FramePlatform`, `EncodePlatform`): an answer is
  the returned `HRESULT` together with the value the platform left in each out-pointer.
  Nothing is assumed about the answers in the definitions.
* A COM pointer is an `Option Handle`.  Calling a method through a null pointer is undefined
  behaviour; the embedded functions return `none` there.
* `g_Mutex` serialises the exported functions; the embedding is sequential.  The implicit
  `AddRef`/`Release` traffic of `ComPtr` is not traced.
* `frameOutstanding` and `stagingMapped` read the state of the platform (a frame acquired
  and not released, a surface mapped and not unmapped) off the trace.
* `Honest` states the COM contract on out-pointers.  It is a hypothesis only where a
  theorem says that a function returns.
-/

namespace Remotier

/-! ## Platform vocabulary -/

/-- Windows status code, a signed 32-bit integer. -/
abbrev HRESULT := Int

/-- Identity of a COM object; a COM pointer is an `Option Handle`, null being `none`. -/
abbrev Handle := Nat

/-- Windows SDK constant `S_OK`. -/
def S_OK : HRESULT := 0

/-- Windows SDK constant `E_FAIL` (0x80004005). -/
def E_FAIL : HRESULT := -2147467259

/-- Windows SDK constant `E_POINTER` (0x80004003). -/
def E_POINTER : HRESULT := -2147467261

/-- Windows SDK constant `DXGI_ERROR_WAIT_TIMEOUT` (0x887A0027). -/
def DXGI_ERROR_WAIT_TIMEOUT : HRESULT := -2005270489

/-- Windows SDK test `FAILED(hr)`: the sign bit is set. -/
def FAILED (hr : HRESULT) : Bool := decide (hr < 0)

/-- Windows SDK test `SUCCEEDED(hr)`. -/
def SUCCEEDED (hr : HRESULT) : Bool := decide (0 ≤ hr)

/-- Conversion to `UINT` / `ULONG` (32 bits, unsigned). -/
def toUINT (x : Int) : Int := x % 4294967296

/-- Conversion to `int` / `LONG` (32 bits, two's complement). -/
def toINT (x : Int) : Int := (x + 2147483648) % 4294967296 - 2147483648

/-- One call made to the platform, with the arguments that matter and the status returned. -/
inductive Event where
  | D3D11CreateDevice (hr : HRESULT)
  | QueryDXGIDevice (device : Handle) (hr : HRESULT)
  | GetAdapter (dxgiDevice : Handle) (hr : HRESULT)
  | EnumOutputs (adapter : Handle) (index : Int) (hr : HRESULT)
  | QueryOutput1 (output : Handle) (hr : HRESULT)
  | DuplicateOutput (output1 : Handle) (device : Option Handle) (hr : HRESULT)
  | GetDesc (output : Handle)
  | AcquireNextFrame (duplication : Handle) (timeoutMs : Int) (hr : HRESULT)
  | ReleaseFrame (duplication : Handle)
  | QueryTexture (resource : Handle) (hr : HRESULT)
  | CoInitialize
  | CoUninitialize
  | CoCreateInstance (hr : HRESULT)
  | CreateTexture2D (device : Handle) (width height : Int) (hr : HRESULT)
  | CopyResource (context staging texture : Handle)
  | Map (context staging : Handle) (hr : HRESULT)
  | Unmap (context staging : Handle)
  | CreateStreamOnHGlobal (hr : HRESULT)
  | CreateEncoder (factory : Handle) (hr : HRESULT)
  | EncoderInitialize (encoder : Handle) (stream : Option Handle) (hr : HRESULT)
  | CreateNewFrame (encoder : Handle) (hr : HRESULT)
  | PropertyWrite (props : Handle) (quality : Int)
  | FrameInitialize (frame props : Handle) (hr : HRESULT)
  | SetSize (frame : Handle) (width height : Int) (hr : HRESULT)
  | SetPixelFormat (frame : Handle) (hr : HRESULT)
  | WritePixels (frame : Handle) (lineCount stride bufferSize : Int) (hr : HRESULT)
  | FrameCommit (frame : Handle) (hr : HRESULT)
  | EncoderCommit (encoder : Handle) (hr : HRESULT)
  | StreamStat (stream : Handle)
  | StreamSeek (stream : Handle)
  | StreamRead (stream : Handle) (size : Int)
  deriving DecidableEq, Repr

/-- Answer of a platform call that has one COM out-pointer: the status and the pointer
value after the call. -/
structure ComOut where
  hr : HRESULT
  out : Option Handle
  deriving DecidableEq, Repr

/-- The `DesktopCoordinates` rectangle of `DXGI_OUTPUT_DESC`. -/
structure RECT where
  left : Int
  top : Int
  right : Int
  bottom : Int
  deriving DecidableEq, Repr

/-- What a member function leaves behind: its `HRESULT`, the object afterwards, and the
platform calls it made, in order. -/
structure Outcome (σ : Type) where
  hr : HRESULT
  self : σ
  events : List Event

/-! ## DXGIManager (the FrameSource) -/

/-- Answers of the platform to the calls of `DXGIManager::Initialize`.  Enumeration answers
per index, and the calls made on an output answer per output. -/
structure DXGIPlatform where
  D3D11CreateDevice : HRESULT
  device : Option Handle
  context : Option Handle
  QueryDXGIDevice : ComOut
  GetAdapter : ComOut
  EnumOutputs : Int → ComOut
  QueryOutput1 : Handle → ComOut
  DuplicateOutput : Handle → ComOut
  GetDesc : Handle → RECT

/-- Data members of `class DXGIManager` (DXGIManager.h lines 26-31). -/
structure DXGIManager where
  m_device : Option Handle
  m_context : Option Handle
  m_duplication : Option Handle
  m_width : Int
  m_height : Int
  deriving DecidableEq, Repr

/-- Constructor `DXGIManager::DXGIManager()` (DXGIManager.cpp lines 4-6): null pointers,
zero size. -/
def DXGIManager.new : DXGIManager :=
  { m_device := none, m_context := none, m_duplication := none, m_width := 0, m_height := 0 }

def DXGIManager.GetWidth (self : DXGIManager) : Int := self.m_width

def DXGIManager.GetHeight (self : DXGIManager) : Int := self.m_height

def DXGIManager.GetDevice (self : DXGIManager) : Option Handle := self.m_device

def DXGIManager.GetContext (self : DXGIManager) : Option Handle := self.m_context

/-- Embedding of `DXGIManager::Initialize` (DXGIManager.cpp lines 13-61).  `monitorIndex`
is passed to `EnumOutputs` as a `UINT`; the two `LONG` subtractions of lines 57-58 are
taken to wrap around. -/
def DXGIManager.Initialize (self : DXGIManager) (monitorIndex : Int) (p : DXGIPlatform) :
    Option (Outcome DXGIManager) :=
  -- lines 22-24
  let self1 := { self with m_device := p.device, m_context := p.context }
  let ev1 := [Event.D3D11CreateDevice p.D3D11CreateDevice]
  if FAILED p.D3D11CreateDevice then some ⟨p.D3D11CreateDevice, self1, ev1⟩ else
  -- lines 27-29: `m_device.As` calls through `m_device`
  match self1.m_device with
  | none => none
  | some device =>
  let ev2 := ev1 ++ [Event.QueryDXGIDevice device p.QueryDXGIDevice.hr]
  if FAILED p.QueryDXGIDevice.hr then some ⟨p.QueryDXGIDevice.hr, self1, ev2⟩ else
  -- lines 31-33
  match p.QueryDXGIDevice.out with
  | none => none
  | some dxgiDevice =>
  let ev3 := ev2 ++ [Event.GetAdapter dxgiDevice p.GetAdapter.hr]
  if FAILED p.GetAdapter.hr then some ⟨p.GetAdapter.hr, self1, ev3⟩ else
  -- lines 36-42
  match p.GetAdapter.out with
  | none => none
  | some dxgiAdapter =>
  let first := p.EnumOutputs (toUINT monitorIndex)
  let ev4 := ev3 ++ [Event.EnumOutputs dxgiAdapter (toUINT monitorIndex) first.hr]
  let dxgiOutput := if FAILED first.hr then (p.EnumOutputs 0).out else first.out
  let ev5 := if FAILED first.hr
    then ev4 ++ [Event.EnumOutputs dxgiAdapter 0 (p.EnumOutputs 0).hr] else ev4
  -- line 44
  match dxgiOutput with
  | none => some ⟨E_FAIL, self1, ev5⟩
  | some output =>
  -- lines 46-48
  let ev6 := ev5 ++ [Event.QueryOutput1 output (p.QueryOutput1 output).hr]
  if FAILED (p.QueryOutput1 output).hr then some ⟨(p.QueryOutput1 output).hr, self1, ev6⟩ else
  -- lines 51-52
  match (p.QueryOutput1 output).out with
  | none => none
  | some output1 =>
  let dup := p.DuplicateOutput output1
  let self2 := { self1 with m_duplication := dup.out }
  let ev7 := ev6 ++ [Event.DuplicateOutput output1 self1.m_device dup.hr]
  if FAILED dup.hr then some ⟨dup.hr, self2, ev7⟩ else
  -- lines 55-60
  let desc := p.GetDesc output
  some ⟨S_OK,
        { self2 with m_width := toINT (desc.right - desc.left),
                     m_height := toINT (desc.bottom - desc.top) },
        ev7 ++ [Event.GetDesc output]⟩

/-- Answers of the platform to the calls of `DXGIManager::CaptureFrame`. -/
structure FramePlatform where
  AcquireNextFrame : ComOut
  QueryTexture : ComOut
  deriving DecidableEq, Repr

/-- What `CaptureFrame` hands back: status, the value left in `*ppTexture`, platform calls. -/
structure Captured where
  hr : HRESULT
  texture : Option Handle
  events : List Event
  deriving DecidableEq, Repr

/-- Embedding of `DXGIManager::CaptureFrame` (DXGIManager.cpp lines 63-110).  `texture` is
the value of `*ppTexture` on entry. -/
def DXGIManager.CaptureFrame (self : DXGIManager) (texture : Option Handle) (timeoutMs : Int)
    (p : FramePlatform) : Option Captured :=
  -- line 65
  match self.m_duplication with
  | none => some ⟨E_POINTER, texture, []⟩
  | some duplication =>
  -- line 69
  let hr := p.AcquireNextFrame.hr
  let ev1 := [Event.AcquireNextFrame duplication (toUINT timeoutMs) hr]
  -- lines 71-74
  if hr = DXGI_ERROR_WAIT_TIMEOUT then some ⟨hr, texture, ev1⟩ else
  -- lines 75-80
  if FAILED hr then some ⟨hr, texture, ev1 ++ [Event.ReleaseFrame duplication]⟩ else
  -- line 82: the call goes through `desktopResource`
  match p.AcquireNextFrame.out with
  | none => none
  | some desktopResource =>
  some ⟨p.QueryTexture.hr, p.QueryTexture.out,
        ev1 ++ [Event.QueryTexture desktopResource p.QueryTexture.hr]⟩

/-- Embedding of `DXGIManager::ReleaseCurrentFrame` (DXGIManager.cpp lines 112-118): the
platform calls it makes. -/
def DXGIManager.ReleaseCurrentFrame (self : DXGIManager) : List Event :=
  match self.m_duplication with
  | some duplication => [Event.ReleaseFrame duplication]
  | none => []

/-- Embedding of `DXGIManager::Release` (DXGIManager.cpp lines 120-129): the object
afterwards and the platform calls made. -/
def DXGIManager.Release (self : DXGIManager) : DXGIManager × List Event :=
  ({ self with m_duplication := none, m_context := none, m_device := none },
   match self.m_duplication with
   | some duplication => [Event.ReleaseFrame duplication]
   | none => [])

/-- Destructor `DXGIManager::~DXGIManager()` (DXGIManager.cpp lines 8-11): runs `Release`. -/
def DXGIManager.destroy (self : DXGIManager) : List Event :=
  (self.Release).2

/-! ## WICEncoder (the FrameEncoder) -/

/-- Answers of the platform to the calls of `WICEncoder::Initialize`. -/
structure WICPlatform where
  CoCreateInstance : ComOut
  CreateTexture2D : ComOut
  deriving DecidableEq, Repr

/-- Data members of `class WICEncoder` (WICEncoder.h lines 19-22). -/
structure WICEncoder where
  m_factory : Option Handle
  m_stagingTexture : Option Handle
  m_width : Int
  m_height : Int
  deriving DecidableEq, Repr

/-- Constructor `WICEncoder::WICEncoder()` (WICEncoder.cpp lines 5-8); its `CoInitialize`
call is traced where the object is constructed. -/
def WICEncoder.new : WICEncoder :=
  { m_factory := none, m_stagingTexture := none, m_width := 0, m_height := 0 }

/-- Embedding of `WICEncoder::Initialize` (WICEncoder.cpp lines 15-37).  The staging
texture is described with `desc.Width = width`, `desc.Height = height`, both `UINT`. -/
def WICEncoder.Initialize (self : WICEncoder) (device : Option Handle) (width height : Int)
    (p : WICPlatform) : Option (Outcome WICEncoder) :=
  -- lines 17-21
  let self1 := { self with m_width := width, m_height := height,
                           m_factory := p.CoCreateInstance.out }
  let ev1 := [Event.CoCreateInstance p.CoCreateInstance.hr]
  if FAILED p.CoCreateInstance.hr then some ⟨p.CoCreateInstance.hr, self1, ev1⟩ else
  -- lines 24-36: the call goes through `device`
  match device with
  | none => none
  | some dev =>
  some ⟨p.CreateTexture2D.hr,
        { self1 with m_stagingTexture := p.CreateTexture2D.out },
        ev1 ++ [Event.CreateTexture2D dev (toUINT width) (toUINT height) p.CreateTexture2D.hr]⟩

/-- Answers of the platform to the calls of `WICEncoder::Encode`: one status per call, the
out-pointers, the `RowPitch` of the mapping, the stream size reported by `Stat`
(`stats.cbSize.QuadPart`) and the bytes `Read` delivers. -/
structure EncodePlatform where
  Map : HRESULT
  RowPitch : Int
  CreateStreamOnHGlobal : ComOut
  CreateEncoder : ComOut
  EncoderInitialize : HRESULT
  CreateNewFrame : HRESULT
  frame : Option Handle
  props : Option Handle
  FrameInitialize : HRESULT
  SetSize : HRESULT
  SetPixelFormat : HRESULT
  WritePixels : HRESULT
  FrameCommit : HRESULT
  EncoderCommit : HRESULT
  cbSize : Int
  Read : List Nat
  deriving DecidableEq, Repr

/-- Local variables of `WICEncoder::Encode` between `Map` and `Unmap` (lines 52-91),
with the platform calls made so far. -/
structure EncodeLocals where
  hr : HRESULT
  stream : Option Handle
  encoder : Option Handle
  frame : Option Handle
  props : Option Handle
  events : List Event
  deriving DecidableEq, Repr

/-- The source idiom `if (SUCCEEDED(hr)) ...`: run the statement only while `hr` is a
success. -/
def whenSucceeded (l : EncodeLocals) (body : EncodeLocals → Option EncodeLocals) :
    Option EncodeLocals :=
  if SUCCEEDED l.hr then body l else some l

/-- Record one platform call and the status it returned into `hr`. -/
def EncodeLocals.call (l : EncodeLocals) (ev : Event) (hr : HRESULT) : EncodeLocals :=
  { l with hr := hr, events := l.events ++ [ev] }

/-- Lines 52-61 of `WICEncoder::Encode`: stream, encoder, new frame. -/
def WICEncoder.Encode.lines52_61 (factory : Handle) (p : EncodePlatform)
    (events : List Event) : Option EncodeLocals :=
  -- line 53
  let l0 : EncodeLocals :=
    { hr := p.CreateStreamOnHGlobal.hr, stream := p.CreateStreamOnHGlobal.out,
      encoder := none, frame := none, props := none,
      events := events ++ [Event.CreateStreamOnHGlobal p.CreateStreamOnHGlobal.hr] }
  -- line 56
  (whenSucceeded l0 fun l =>
    some { l.call (Event.CreateEncoder factory p.CreateEncoder.hr) p.CreateEncoder.hr
           with encoder := p.CreateEncoder.out }).bind fun l1 =>
  -- line 57
  (whenSucceeded l1 fun l =>
    match l.encoder with
    | none => none
    | some encoder =>
      some (l.call (Event.EncoderInitialize encoder l.stream p.EncoderInitialize)
              p.EncoderInitialize)).bind fun l2 =>
  -- line 61
  whenSucceeded l2 fun l =>
    match l.encoder with
    | none => none
    | some encoder =>
      some { l.call (Event.CreateNewFrame encoder p.CreateNewFrame) p.CreateNewFrame
             with frame := p.frame, props := p.props }

/-- Lines 63-75 of `WICEncoder::Encode`: write the quality property, initialise the frame.
The property value is `(float)quality / 100.0f`; the trace keeps `quality`. -/
def WICEncoder.Encode.lines63_75 (quality : Int) (p : EncodePlatform) (l1 : EncodeLocals) :
    Option EncodeLocals :=
  whenSucceeded l1 fun l =>
    match l.props, l.frame with
    | some props, some frame =>
      some ({ l with events := l.events ++ [Event.PropertyWrite props quality] }.call
              (Event.FrameInitialize frame props p.FrameInitialize) p.FrameInitialize)
    | _, _ => none

/-- Lines 77-91 of `WICEncoder::Encode`: size, pixel format, pixels, the two commits. -/
def WICEncoder.Encode.lines77_91 (self : WICEncoder) (p : EncodePlatform)
    (l1 : EncodeLocals) : Option EncodeLocals :=
  whenSucceeded l1 fun l =>
    match l.frame with
    | none => none
    | some frame =>
      -- line 79
      let l2 := l.call (Event.SetSize frame (toUINT self.m_width) (toUINT self.m_height)
                          p.SetSize) p.SetSize
      -- line 81
      (whenSucceeded l2 fun l =>
        some (l.call (Event.SetPixelFormat frame p.SetPixelFormat)
                p.SetPixelFormat)).bind fun l3 =>
      -- lines 83-87
      (whenSucceeded l3 fun l =>
        some (l.call (Event.WritePixels frame (toUINT self.m_height) p.RowPitch
                        (toUINT (p.RowPitch * self.m_height)) p.WritePixels)
                p.WritePixels)).bind fun l4 =>
      -- line 89
      (whenSucceeded l4 fun l =>
        some (l.call (Event.FrameCommit frame p.FrameCommit) p.FrameCommit)).bind fun l5 =>
      -- line 90
      whenSucceeded l5 fun l =>
        match l.encoder with
        | none => none
        | some encoder =>
          some (l.call (Event.EncoderCommit encoder p.EncoderCommit) p.EncoderCommit)

/-- The effect of `outData.resize(size)` on the byte vector: keep the first `size` bytes,
pad with zero bytes. -/
def resize (outData : List Nat) (size : Nat) : List Nat :=
  outData.take size ++ List.replicate (size - outData.length) 0

/-- The effect of `stream->Read(outData.data(), size, &bytesRead)` on a vector of `size`
bytes: at most `size` bytes are stored at the front. -/
def readInto (outData : List Nat) (size : Nat) (bytes : List Nat) : List Nat :=
  bytes.take size ++ outData.drop (bytes.take size).length

/-- What `Encode` leaves behind: status, the vector `outData`, platform calls. -/
structure Encoded where
  hr : HRESULT
  outData : List Nat
  events : List Event
  deriving DecidableEq, Repr

/-- Embedding of `WICEncoder::Encode` (WICEncoder.cpp lines 39-110), with the four
parameters of its definition and of its call in NativeHost.cpp (WICEncoder.h declares a
fifth, `scalePercent`).  `texture` is non-null at the only call. -/
def WICEncoder.Encode (self : WICEncoder) (texture : Handle) (context : Option Handle)
    (quality : Int) (outData : List Nat) (p : EncodePlatform) : Option Encoded :=
  -- line 41
  match self.m_stagingTexture, self.m_factory with
  | some staging, some factory =>
    -- lines 44-49: the calls go through `context`
    match context with
    | none => none
    | some ctx =>
      let ev1 := [Event.CopyResource ctx staging texture, Event.Map ctx staging p.Map]
      if FAILED p.Map then some ⟨p.Map, outData, ev1⟩ else
      -- lines 52-91
      match ((WICEncoder.Encode.lines52_61 factory p ev1).bind
               (WICEncoder.Encode.lines63_75 quality p)).bind
               (WICEncoder.Encode.lines77_91 self p) with
      | none => none
      | some l =>
        -- line 93
        let ev2 := l.events ++ [Event.Unmap ctx staging]
        -- lines 95-109
        if SUCCEEDED l.hr then
          match l.stream with
          | none => none
          | some stream =>
            let size := (toUINT p.cbSize).toNat
            some ⟨l.hr, readInto (resize outData size) size p.Read,
                  ev2 ++ [Event.StreamStat stream, Event.StreamSeek stream,
                          Event.StreamRead stream (toUINT p.cbSize)]⟩
        else some ⟨l.hr, outData, ev2⟩
  | _, _ => some ⟨E_FAIL, outData, []⟩

/-! ## NativeHost (the CaptureSession) -/

/-- The file-scope state of NativeHost.cpp (lines 8-10) with the trace of all platform
calls made so far. -/
structure Session where
  g_Capture : Option DXGIManager
  g_Encoder : Option WICEncoder
  g_Buffer : List Nat
  trace : List Event
  deriving DecidableEq, Repr

/-- State at load time: null `unique_ptr`s, empty vector, nothing called yet. -/
def Session.initial : Session :=
  { g_Capture := none, g_Encoder := none, g_Buffer := [], trace := [] }

/-- Answers of the platform during one `Init`. -/
structure InitPlatform where
  dxgi : DXGIPlatform
  wic : WICPlatform

/-- Answers of the platform during one `CaptureAndEncode`. -/
structure CapturePlatform where
  frame : FramePlatform
  encode : EncodePlatform
  deriving DecidableEq, Repr

/-- Platform calls made when a `unique_ptr<DXGIManager>` gives up its object. -/
def resetCapture (old : Option DXGIManager) : List Event :=
  match old with
  | some capture => capture.destroy
  | none => []

/-- Platform calls made when a `unique_ptr<WICEncoder>` gives up its object: the
destructor (WICEncoder.cpp lines 10-13) calls `CoUninitialize`. -/
def resetEncoder (old : Option WICEncoder) : List Event :=
  match old with
  | some _ => [Event.CoUninitialize]
  | none => []

/-- Embedding of `Init` (NativeHost.cpp lines 13-30): the status and the state afterwards.
Each `make_unique` builds the new object first; the assignment then destroys the one the
pointer held. -/
def Init (monitorIndex : Int) (p : InitPlatform) (s : Session) : Option (Int × Session) :=
  -- lines 17-21
  match DXGIManager.new.Initialize monitorIndex p.dxgi with
  | none => none
  | some c =>
    let s1 := { s with g_Capture := some c.self,
                       trace := s.trace ++ resetCapture s.g_Capture ++ c.events }
    if FAILED c.hr then some (-1, s1) else
    -- lines 23-27
    match WICEncoder.new.Initialize c.self.GetDevice c.self.GetWidth c.self.GetHeight
            p.wic with
    | none => none
    | some e =>
      let s2 := { s1 with g_Encoder := some e.self,
                          trace := s1.trace ++ [Event.CoInitialize] ++
                                   resetEncoder s.g_Encoder ++ e.events }
      if FAILED e.hr then some (-2, s2) else
      -- line 29
      some (0, s2)

/-- What the caller of `CaptureAndEncode` sees: the status, and what was stored through
`outData` / `outSize` (`none` when they were not written).  The stored pointer is
`g_Buffer.data()`, represented by the bytes it points to. -/
structure Reply where
  status : Int
  out : Option (List Nat × Int)
  deriving DecidableEq, Repr

/-- Embedding of `CaptureAndEncode` (NativeHost.cpp lines 32-56).  `outData` and `outSize`
are taken to be valid pointers of the caller. -/
def CaptureAndEncode (quality : Int) (p : CapturePlatform) (s : Session) :
    Option (Reply × Session) :=
  -- line 36
  match s.g_Capture, s.g_Encoder with
  | some capture, some encoder =>
    -- lines 38-39
    match capture.CaptureFrame none 100 p.frame with
    | none => none
    | some f =>
      let s1 := { s with trace := s.trace ++ f.events }
      -- line 41
      if f.hr = DXGI_ERROR_WAIT_TIMEOUT then some (⟨0, none⟩, s1) else
      -- line 42
      if FAILED f.hr then some (⟨-2, none⟩, s1) else
      match f.texture with
      | none => some (⟨-2, none⟩, s1)
      | some texture =>
        -- line 45
        match encoder.Encode texture capture.GetContext quality s.g_Buffer p.encode with
        | none => none
        | some e =>
          -- line 48
          let s2 := { s1 with g_Buffer := e.outData,
                              trace := s1.trace ++ e.events ++ capture.ReleaseCurrentFrame }
          -- line 50
          if FAILED e.hr then some (⟨-3, none⟩, s2) else
          -- lines 52-55
          some (⟨1, some (s2.g_Buffer, toINT s2.g_Buffer.length)⟩, s2)
  | _, _ => some (⟨-1, none⟩, s)

/-- Embedding of `Release` (NativeHost.cpp lines 58-63): encoder first, then capture. -/
def Release (s : Session) : Session :=
  { s with g_Encoder := none, g_Capture := none,
           trace := s.trace ++ resetEncoder s.g_Encoder ++ resetCapture s.g_Capture }

/-! ## Sequences of calls -/

/-- One call of an exported function, with the platform's answers during it. -/
inductive Call where
  | Init (monitorIndex : Int) (p : InitPlatform)
  | CaptureAndEncode (quality : Int) (p : CapturePlatform)
  | Release

/-- What a call handed back to its caller. -/
inductive Returned where
  | status (code : Int)
  | reply (r : Reply)
  | void
  deriving DecidableEq, Repr

/-- Run one call. -/
def step (c : Call) (s : Session) : Option (Returned × Session) :=
  match c with
  | .Init monitorIndex p => (Init monitorIndex p s).map fun r => (.status r.1, r.2)
  | .CaptureAndEncode quality p => (CaptureAndEncode quality p s).map fun r => (.reply r.1, r.2)
  | .Release => some (.void, Release s)

/-- Run calls one after the other (the mutex admits one at a time), collecting what each
handed back. -/
def run : List Call → Session → Option (List Returned × Session)
  | [], s => some ([], s)
  | c :: cs, s =>
    match step c s with
    | none => none
    | some (r, s1) =>
      match run cs s1 with
      | none => none
      | some (rs, s2) => some (r :: rs, s2)

/-- A sequence of `CaptureAndEncode` calls, given by the quality and the platform's
answers of each. -/
def captureCalls (captures : List (Int × CapturePlatform)) : List Call :=
  captures.map fun c => Call.CaptureAndEncode c.1 c.2

/-- The session in which `calls` leave `s` (`s` itself if a call is undefined). -/
def sessionAfter (calls : List Call) (s : Session) : Session :=
  match run calls s with
  | some r => r.2
  | none => s

/-! ## Observers and platform contract -/

/-- The event is a `ReleaseFrame` call. -/
def Event.isReleaseFrame : Event → Bool
  | .ReleaseFrame _ => true
  | _ => false

/-- The event is an `AcquireNextFrame` call. -/
def Event.isAcquire : Event → Bool
  | .AcquireNextFrame _ _ _ => true
  | _ => false

/-- The event is an `AcquireNextFrame` call that handed out a frame. -/
def Event.isAcquired : Event → Bool
  | .AcquireNextFrame _ _ hr => SUCCEEDED hr
  | _ => false

/-- The event is a `Map` call that succeeded. -/
def Event.isMapped : Event → Bool
  | .Map _ _ hr => SUCCEEDED hr
  | _ => false

/-- The event is an `Unmap` call. -/
def Event.isUnmap : Event → Bool
  | .Unmap _ _ => true
  | _ => false

/-- The event is an `EnumOutputs` call. -/
def Event.isEnumOutputs : Event → Bool
  | .EnumOutputs _ _ _ => true
  | _ => false

/-- The event is one of the two calls of `WICEncoder::Initialize`. -/
def Event.isEncoderInit : Event → Bool
  | .CoCreateInstance _ => true
  | .CreateTexture2D _ _ _ _ => true
  | _ => false

/-- The event is a call made by `WICEncoder::Encode` between `Map` and `Unmap`, or one of
its stream calls after `Unmap`: no call on the device context or the duplication. -/
def Event.isCodec : Event → Bool
  | .CreateStreamOnHGlobal _ => true
  | .CreateEncoder _ _ => true
  | .EncoderInitialize _ _ _ => true
  | .CreateNewFrame _ _ => true
  | .PropertyWrite _ _ => true
  | .FrameInitialize _ _ _ => true
  | .SetSize _ _ _ _ => true
  | .SetPixelFormat _ _ => true
  | .WritePixels _ _ _ _ _ => true
  | .FrameCommit _ _ => true
  | .EncoderCommit _ _ => true
  | .StreamStat _ => true
  | .StreamSeek _ => true
  | .StreamRead _ _ => true
  | _ => false

/-- Whether a frame of duplication `d` is outstanding (acquired and not yet released)
after the platform calls of `trace`: a successful `AcquireNextFrame` on `d` makes one
outstanding, `ReleaseFrame` on `d` returns it. -/
def frameOutstanding (d : Handle) (trace : List Event) : Bool :=
  trace.foldl (fun b ev =>
    match ev with
    | .AcquireNextFrame d1 _ hr => if d1 = d && SUCCEEDED hr then true else b
    | .ReleaseFrame d1 => if d1 = d then false else b
    | _ => b) false

/-- Whether staging surface `t` is mapped for CPU access after the platform calls of
`trace`, starting from `b`. -/
def stagingMapped (t : Handle) (b : Bool) (trace : List Event) : Bool :=
  trace.foldl (fun b ev =>
    match ev with
    | .Map _ t1 hr => if t1 = t && SUCCEEDED hr then true else b
    | .Unmap _ t1 => if t1 = t then false else b
    | _ => b) b

/-- COM contract on an out-pointer: non-null after success, null after failure. -/
def ComOut.Honest (r : ComOut) : Prop :=
  (FAILED r.hr = true → r.out = none) ∧ (FAILED r.hr = false → r.out ≠ none)

instance (r : ComOut) : Decidable r.Honest := by
  unfold ComOut.Honest
  infer_instance

/-- The platform keeps the COM contract during `DXGIManager::Initialize`. -/
def DXGIPlatform.Honest (p : DXGIPlatform) : Prop :=
  (FAILED p.D3D11CreateDevice = false → p.device ≠ none ∧ p.context ≠ none) ∧
  p.QueryDXGIDevice.Honest ∧ p.GetAdapter.Honest ∧
  (∀ i, (p.EnumOutputs i).Honest) ∧
  (∀ o, (p.QueryOutput1 o).Honest) ∧
  (∀ o, (p.DuplicateOutput o).Honest)

/-- The platform keeps the COM contract during `DXGIManager::CaptureFrame`. -/
def FramePlatform.Honest (p : FramePlatform) : Prop :=
  p.AcquireNextFrame.Honest ∧ p.QueryTexture.Honest

/-- The platform keeps the COM contract during `WICEncoder::Encode`. -/
def EncodePlatform.Honest (p : EncodePlatform) : Prop :=
  p.CreateStreamOnHGlobal.Honest ∧ p.CreateEncoder.Honest ∧
  (FAILED p.CreateNewFrame = false → p.frame ≠ none ∧ p.props ≠ none)

/-- The platform keeps the COM contract during `CaptureAndEncode`. -/
def CapturePlatform.Honest (p : CapturePlatform) : Prop :=
  p.frame.Honest ∧ p.encode.Honest

/-- The platform keeps the COM contract during the FrameSource initialisation of the call,
if it is an `Init`. -/
def Call.Honest : Call → Prop
  | .Init _ p => p.dxgi.Honest
  | _ => True

/-- A FrameSource whose duplication handle is bound also has its device context. -/
def DXGIManager.Bound (self : DXGIManager) : Prop :=
  self.m_duplication ≠ none → self.m_context ≠ none

/-- Whether, going by what the calls so far handed back, some `Init` since the last
`Release` (or since load) got past FrameSource initialisation, that is returned 0 or -2.
`built` is the answer before the calls. -/
def encoderBuilt (built : Bool) : List Returned → Bool
  | [] => built
  | .status code :: rest => encoderBuilt (built || decide (code ≠ -1)) rest
  | .void :: rest => encoderBuilt false rest
  | .reply _ :: rest => encoderBuilt built rest

/-! ## Concrete platforms and sessions for the worked examples -/

/-- A platform with one output (index 0, 1920 by 1080) on which every call succeeds;
enumeration of any other index fails with `DXGI_ERROR_NOT_FOUND` (0x887A0002). -/
def fallbackPlatform : DXGIPlatform :=
  { D3D11CreateDevice := 0, device := some 1, context := some 2,
    QueryDXGIDevice := ⟨0, some 3⟩, GetAdapter := ⟨0, some 4⟩,
    EnumOutputs := fun i => if i = 0 then ⟨0, some 5⟩ else ⟨-2005270526, none⟩,
    QueryOutput1 := fun _ => ⟨0, some 6⟩, DuplicateOutput := fun _ => ⟨0, some 7⟩,
    GetDesc := fun _ => ⟨0, 0, 1920, 1080⟩ }

/-- A platform on which both calls of `WICEncoder::Initialize` succeed. -/
def wicPlatform : WICPlatform :=
  { CoCreateInstance := ⟨0, some 10⟩, CreateTexture2D := ⟨0, some 11⟩ }

/-- A platform on which `Init` succeeds. -/
def readyPlatform : InitPlatform :=
  { dxgi := fallbackPlatform, wic := wicPlatform }

/-- An encoder as `Init` leaves it on `readyPlatform`. -/
def readyEncoder : WICEncoder :=
  { m_factory := some 10, m_stagingTexture := some 11, m_width := 1920, m_height := 1080 }

/-- A platform on which every call of `Encode` succeeds and the stream holds three bytes. -/
def encodePlatform : EncodePlatform :=
  { Map := 0, RowPitch := 7680, CreateStreamOnHGlobal := ⟨0, some 20⟩,
    CreateEncoder := ⟨0, some 21⟩, EncoderInitialize := 0, CreateNewFrame := 0,
    frame := some 22, props := some 23, FrameInitialize := 0, SetSize := 0,
    SetPixelFormat := 0, WritePixels := 0, FrameCommit := 0, EncoderCommit := 0,
    cbSize := 3, Read := [255, 216, 255] }

/-- As `encodePlatform`, but `WritePixels` fails. -/
def failingEncodePlatform : EncodePlatform :=
  { encodePlatform with WritePixels := E_FAIL }

/-- A FrameSource as `Init` leaves it on `readyPlatform`. -/
def readyCapture : DXGIManager :=
  { m_device := some 1, m_context := some 2, m_duplication := some 7,
    m_width := 1920, m_height := 1080 }

/-- The session after `Init 0` on `readyPlatform` from the initial state. -/
def readySession : Session :=
  { g_Capture := some readyCapture, g_Encoder := some readyEncoder, g_Buffer := [],
    trace := [Event.D3D11CreateDevice 0, Event.QueryDXGIDevice 1 0, Event.GetAdapter 3 0,
      Event.EnumOutputs 4 0 0, Event.QueryOutput1 5 0, Event.DuplicateOutput 6 (some 1) 0,
      Event.GetDesc 5, Event.CoInitialize, Event.CoCreateInstance 0,
      Event.CreateTexture2D 1 1920 1080 0] }

/-- A platform on which `CaptureFrame` acquires a frame and obtains its texture. -/
def framePlatform : FramePlatform :=
  { AcquireNextFrame := ⟨0, some 30⟩, QueryTexture := ⟨0, some 31⟩ }

/-- A platform on which `CaptureAndEncode` succeeds. -/
def capturePlatform : CapturePlatform :=
  { frame := framePlatform, encode := encodePlatform }

/-- A platform on which the frame is acquired and `Encode` fails at `WritePixels`. -/
def failingCapturePlatform : CapturePlatform :=
  { frame := framePlatform, encode := failingEncodePlatform }

/-- A platform on which the frame is acquired and the conversion of the acquired resource
to a texture fails with `E_NOINTERFACE` (0x80004002). -/
def lostTexturePlatform : CapturePlatform :=
  { frame := { AcquireNextFrame := ⟨0, some 30⟩, QueryTexture := ⟨-2147467262, none⟩ },
    encode := encodePlatform }

/-- A platform on which the FrameSource initialises and the staging texture cannot be
created (`E_OUTOFMEMORY`, 0x8007000E). -/
def noStagingPlatform : InitPlatform :=
  { dxgi := fallbackPlatform,
    wic := { CoCreateInstance := ⟨0, some 10⟩, CreateTexture2D := ⟨-2147024882, none⟩ } }

/-- A platform on which device creation fails (`DXGI_ERROR_UNSUPPORTED`, 0x887A0004). -/
def noDevicePlatform : InitPlatform :=
  { dxgi := { fallbackPlatform with D3D11CreateDevice := -2005270524, device := none,
                                    context := none },
    wic := wicPlatform }

/-! ## Properties -/

/-! ### Status codes -/

/-- `SUCCEEDED` is the negation of `FAILED`. -/
theorem SUCCEEDED_eq (hr : HRESULT) : SUCCEEDED hr = !FAILED hr := by
  unfold SUCCEEDED FAILED
  by_cases h : hr < 0
  · simp [h, not_le.mpr h]
  · simp [h, not_lt.mp h]

/-- The timeout status is a failure status. -/
theorem FAILED_of_timeout {hr : HRESULT} (h : hr = DXGI_ERROR_WAIT_TIMEOUT) :
    FAILED hr = true := by
  subst h; decide

theorem FAILED_E_FAIL : FAILED E_FAIL = true := by decide

theorem FAILED_E_POINTER : FAILED E_POINTER = true := by decide

theorem toUINT_zero : toUINT 0 = 0 := by decide

/-! ### FrameSource initialisation -/

/-- With a rejected index, `Initialize` ends as `Initialize(0)` does. -/
theorem Initialize_fallback (self : DXGIManager) (monitorIndex : Int) (p : DXGIPlatform)
    (hrej : FAILED (p.EnumOutputs (toUINT monitorIndex)).hr = true) :
    (self.Initialize monitorIndex p).map
        (fun o => (o.hr, o.self, o.events.filter (fun ev => !ev.isEnumOutputs))) =
      (self.Initialize 0 p).map
        (fun o => (o.hr, o.self, o.events.filter (fun ev => !ev.isEnumOutputs))) := by
  unfold DXGIManager.Initialize
  simp only [toUINT_zero, hrej, if_true]
  by_cases h1 : FAILED p.D3D11CreateDevice = true
  · simp [h1]
  simp only [h1]
  cases hd : p.device
  · simp
  by_cases h2 : FAILED p.QueryDXGIDevice.hr = true
  · simp [h2, Event.isEnumOutputs]
  simp only [h2]
  cases hq : p.QueryDXGIDevice.out
  · simp
  by_cases h3 : FAILED p.GetAdapter.hr = true
  · simp [h3, Event.isEnumOutputs]
  simp only [h3]
  cases ha : p.GetAdapter.out
  · simp
  by_cases h0 : FAILED (p.EnumOutputs 0).hr = true <;> simp only [h0] <;>
    cases ho : (p.EnumOutputs 0).out <;>
    simp [Event.isEnumOutputs] <;>
    (repeat' split) <;> simp_all [Event.isEnumOutputs]

/-- On a platform that keeps the COM contract `Initialize` dereferences no null pointer. -/
theorem Initialize_total (self : DXGIManager) (monitorIndex : Int) (p : DXGIPlatform)
    (hp : p.Honest) : ∃ c, self.Initialize monitorIndex p = some c := by
  obtain ⟨hdev, hq, ha, -, ho1, -⟩ := hp
  have ho2 := fun o => (ho1 o).2
  unfold DXGIManager.Initialize
  dsimp only
  (repeat' split) <;> simp_all [ComOut.Honest]

/-- What `Initialize` leaves in a fresh object, and the kind of calls it makes. -/
theorem Initialize_new_spec (monitorIndex : Int) (p : DXGIPlatform) (c : Outcome DXGIManager)
    (h : DXGIManager.new.Initialize monitorIndex p = some c) :
    c.self.m_device = p.device ∧ c.self.m_context = p.context ∧
    (FAILED c.hr = false → c.self.m_device ≠ none) ∧
    (c.self.m_duplication ≠ none → FAILED p.D3D11CreateDevice = false) ∧
    (∀ ev ∈ c.events, ev.isEncoderInit = false ∧ ev ≠ Event.CoInitialize ∧
        ev.isAcquire = false ∧ ev.isReleaseFrame = false) := by
  unfold DXGIManager.Initialize DXGIManager.new at h
  dsimp only at h
  (repeat' split at h) <;> cases h <;>
    simp_all [Event.isEncoderInit, Event.isAcquire, Event.isReleaseFrame]

/-- C7: a monitor index the enumeration rejects makes `Initialize` fall back to output 0.
(a) `Initialize(index)` ends with the status and the object of `Initialize(0)`, and apart
from the `EnumOutputs` calls makes the same platform calls; (b) when the steps before the
selection succeed, a primary output exists and duplication binds, both succeed with the
width and height of the primary output; (c) when enumeration of index 0 fails too (on a
platform that keeps the COM contract) a failure status is returned. -/
theorem C7_rejected_index_falls_back (self : DXGIManager) (monitorIndex : Int)
    (p : DXGIPlatform)
    (hrej : FAILED (p.EnumOutputs (toUINT monitorIndex)).hr = true) :
    ((self.Initialize monitorIndex p).map
        (fun o => (o.hr, o.self, o.events.filter (fun ev => !ev.isEnumOutputs))) =
      (self.Initialize 0 p).map
        (fun o => (o.hr, o.self, o.events.filter (fun ev => !ev.isEnumOutputs)))) ∧
    (∀ device dxgiDevice adapter output output1,
      FAILED p.D3D11CreateDevice = false → p.device = some device →
      FAILED p.QueryDXGIDevice.hr = false → p.QueryDXGIDevice.out = some dxgiDevice →
      FAILED p.GetAdapter.hr = false → p.GetAdapter.out = some adapter →
      (p.EnumOutputs 0).out = some output →
      FAILED (p.QueryOutput1 output).hr = false → (p.QueryOutput1 output).out = some output1 →
      FAILED (p.DuplicateOutput output1).hr = false →
      ∃ o o0, self.Initialize monitorIndex p = some o ∧ self.Initialize 0 p = some o0 ∧
        o.hr = S_OK ∧ o0.hr = S_OK ∧
        o.self.GetWidth = o0.self.GetWidth ∧ o.self.GetHeight = o0.self.GetHeight ∧
        o.self.GetWidth = toINT ((p.GetDesc output).right - (p.GetDesc output).left) ∧
        o.self.GetHeight = toINT ((p.GetDesc output).bottom - (p.GetDesc output).top) ∧
        o.self.m_duplication = (p.DuplicateOutput output1).out) ∧
    (p.Honest → FAILED (p.EnumOutputs 0).hr = true →
      ∃ o, self.Initialize monitorIndex p = some o ∧ FAILED o.hr = true) := by
  refine ⟨Initialize_fallback self monitorIndex p hrej, ?_, ?_⟩
  · intro device dxgiDevice adapter output output1 h1 hd h2 hq h3 ha ho h4 ho1 h5
    unfold DXGIManager.Initialize
    by_cases h0 : FAILED (p.EnumOutputs 0).hr = true <;>
      simp [toUINT_zero, hrej, h0, h1, hd, h2, hq, h3, ha, ho, h4, ho1, h5,
        DXGIManager.GetWidth, DXGIManager.GetHeight]
  · intro hp h0
    obtain ⟨c, hc⟩ := Initialize_total self monitorIndex p hp
    refine ⟨c, hc, ?_⟩
    have hnone : (p.EnumOutputs 0).out = none := (hp.2.2.2.1 0).1 h0
    unfold DXGIManager.Initialize at hc
    dsimp only at hc
    simp only [hrej, hnone, if_true] at hc
    (repeat' split at hc) <;> cases hc <;> simp_all [FAILED_E_FAIL]

/-- Worked example of C7: index 3 is rejected, output 0 is 1920 by 1080. -/
theorem C7_witness :
    ∃ o, DXGIManager.new.Initialize 3 fallbackPlatform = some o ∧ o.hr = S_OK ∧
      o.self.GetWidth = 1920 ∧ o.self.GetHeight = 1080 :=
  have h := (C7_rejected_index_falls_back DXGIManager.new 3 fallbackPlatform (by decide)).2.1
    1 3 4 5 6 (by decide) (by decide) (by decide) (by decide) (by decide) (by decide)
    (by decide) (by decide) (by decide) (by decide)
  match h with
  | ⟨o, _, ho, _, hs, _, _, _, hw, hh, _⟩ => ⟨o, ho, hs, by rw [hw]; decide, by rw [hh]; decide⟩

/-! ### Session initialisation -/

/-- Destroying a FrameSource makes no call of the encoder's initialisation. -/
theorem resetCapture_events (old : Option DXGIManager) :
    ∀ ev ∈ resetCapture old, ev.isEncoderInit = false ∧ ev ≠ Event.CoInitialize ∧
      ev.isAcquire = false := by
  unfold resetCapture DXGIManager.destroy DXGIManager.Release
  cases old with
  | none => simp
  | some c => cases hd : c.m_duplication <;> simp [hd, Event.isEncoderInit, Event.isAcquire]

/-- The two paths of `WICEncoder::Initialize`, read off its result. -/
theorem WICInitialize_spec (self : WICEncoder) (device : Option Handle) (width height : Int)
    (p : WICPlatform) (e : Outcome WICEncoder)
    (he : self.Initialize device width height p = some e) :
    e.self.m_width = width ∧ e.self.m_height = height ∧
    e.self.m_factory = p.CoCreateInstance.out ∧
    (FAILED p.CoCreateInstance.hr = true →
      e.hr = p.CoCreateInstance.hr ∧ e.self.m_stagingTexture = self.m_stagingTexture ∧
      e.events = [Event.CoCreateInstance p.CoCreateInstance.hr]) ∧
    (FAILED p.CoCreateInstance.hr = false → ∃ dev, device = some dev ∧
      e.hr = p.CreateTexture2D.hr ∧ e.self.m_stagingTexture = p.CreateTexture2D.out ∧
      e.events = [Event.CoCreateInstance p.CoCreateInstance.hr,
        Event.CreateTexture2D dev (toUINT width) (toUINT height) p.CreateTexture2D.hr]) := by
  unfold WICEncoder.Initialize at he
  dsimp only at he
  (repeat' split at he) <;> cases he <;> simp_all

/-- With a device, `WICEncoder::Initialize` dereferences no null pointer. -/
theorem WICInitialize_total (self : WICEncoder) (device : Option Handle) (width height : Int)
    (p : WICPlatform) (hd : device ≠ none) :
    ∃ e, self.Initialize device width height p = some e := by
  unfold WICEncoder.Initialize
  dsimp only
  (repeat' split) <;> simp_all

/-- The paths of `Init`, read off its result. -/
theorem Init_spec (monitorIndex : Int) (p : InitPlatform) (s s1 : Session) (status : Int)
    (h : Init monitorIndex p s = some (status, s1)) :
    ∃ c, DXGIManager.new.Initialize monitorIndex p.dxgi = some c ∧
      ((FAILED c.hr = true ∧ status = -1 ∧
          s1 = ⟨some c.self, s.g_Encoder, s.g_Buffer,
            s.trace ++ resetCapture s.g_Capture ++ c.events⟩) ∨
       (FAILED c.hr = false ∧ ∃ e,
          WICEncoder.new.Initialize c.self.GetDevice c.self.GetWidth c.self.GetHeight p.wic
            = some e ∧
          s1 = ⟨some c.self, some e.self, s.g_Buffer,
            s.trace ++ resetCapture s.g_Capture ++ c.events ++ [Event.CoInitialize] ++
              resetEncoder s.g_Encoder ++ e.events⟩ ∧
          ((FAILED e.hr = true ∧ status = -2) ∨ (FAILED e.hr = false ∧ status = 0)))) := by
  unfold Init at h
  cases hc : DXGIManager.new.Initialize monitorIndex p.dxgi with
  | none => simp [hc] at h
  | some c =>
  refine ⟨c, rfl, ?_⟩
  cases hf : FAILED c.hr with
  | true =>
    simp [hc, hf] at h
    exact Or.inl ⟨rfl, h.1.symm, by rw [← h.2]; simp [List.append_assoc]⟩
  | false =>
  cases he : WICEncoder.new.Initialize c.self.GetDevice c.self.GetWidth c.self.GetHeight
      p.wic with
  | none => simp [hc, hf, he] at h
  | some e =>
  refine Or.inr ⟨rfl, e, rfl, ?_⟩
  cases hfe : FAILED e.hr with
  | true =>
    simp [hc, hf, he, hfe] at h
    exact ⟨by rw [← h.2]; simp [List.append_assoc], Or.inl ⟨rfl, h.1.symm⟩⟩
  | false =>
    simp [hc, hf, he, hfe] at h
    exact ⟨by rw [← h.2]; simp [List.append_assoc], Or.inr ⟨rfl, h.1.symm⟩⟩

/-- On a platform that keeps the COM contract `Init` returns. -/
theorem Init_total (monitorIndex : Int) (p : InitPlatform) (s : Session)
    (hp : p.dxgi.Honest) : ∃ status s1, Init monitorIndex p s = some (status, s1) := by
  obtain ⟨c, hc⟩ := Initialize_total DXGIManager.new monitorIndex p.dxgi hp
  obtain ⟨-, -, hdev, -, -⟩ := Initialize_new_spec monitorIndex p.dxgi c hc
  unfold Init
  cases hf : FAILED c.hr with
  | true => simp [hc, hf]
  | false =>
    obtain ⟨e, he⟩ := WICInitialize_total WICEncoder.new c.self.GetDevice c.self.GetWidth
      c.self.GetHeight p.wic (hdev hf)
    cases hfe : FAILED e.hr <;> simp [hc, hf, he, hfe]

/-- C6: the status of `Init` tells which collaborator failed.  On a platform that keeps
the COM contract `Init` returns; and whenever it returns, the status is -1 exactly when
`DXGIManager::Initialize` fails, -2 exactly when it succeeds and
`WICEncoder::Initialize` fails, 0 exactly when both succeed.  On -1 the encoder pointer is
untouched and no call of the encoder's initialisation reaches the platform; otherwise the
encoder is initialised with the device, width and height of the FrameSource. -/
theorem C6_init_status (monitorIndex : Int) (p : InitPlatform) (s : Session) :
    (p.dxgi.Honest → ∃ status s1, Init monitorIndex p s = some (status, s1)) ∧
    ∀ status s1, Init monitorIndex p s = some (status, s1) →
      ∃ c, DXGIManager.new.Initialize monitorIndex p.dxgi = some c ∧
      s1.g_Capture = some c.self ∧
      (status = -1 ↔ FAILED c.hr = true) ∧
      (status = -2 ↔ FAILED c.hr = false ∧ ∃ e,
        WICEncoder.new.Initialize c.self.GetDevice c.self.GetWidth c.self.GetHeight p.wic
          = some e ∧ FAILED e.hr = true) ∧
      (status = 0 ↔ FAILED c.hr = false ∧ ∃ e,
        WICEncoder.new.Initialize c.self.GetDevice c.self.GetWidth c.self.GetHeight p.wic
          = some e ∧ FAILED e.hr = false) ∧
      (FAILED c.hr = true → s1.g_Encoder = s.g_Encoder ∧
        ∃ new, s1.trace = s.trace ++ new ∧
          ∀ ev ∈ new, ev.isEncoderInit = false ∧ ev ≠ Event.CoInitialize) ∧
      (FAILED c.hr = false → ∃ e,
        WICEncoder.new.Initialize c.self.GetDevice c.self.GetWidth c.self.GetHeight p.wic
          = some e ∧
        s1.g_Encoder = some e.self ∧
        e.self.m_width = c.self.GetWidth ∧ e.self.m_height = c.self.GetHeight ∧
        (FAILED p.wic.CoCreateInstance.hr = false → ∃ dev, c.self.GetDevice = some dev ∧
          Event.CreateTexture2D dev (toUINT c.self.GetWidth) (toUINT c.self.GetHeight)
            p.wic.CreateTexture2D.hr ∈ s1.trace)) := by
  refine ⟨Init_total monitorIndex p s, ?_⟩
  intro status s1 h
  obtain ⟨c, hc, hcase⟩ := Init_spec monitorIndex p s s1 status h
  obtain ⟨-, -, -, -, hev⟩ := Initialize_new_spec monitorIndex p.dxgi c hc
  refine ⟨c, hc, ?_⟩
  rcases hcase with ⟨hf, rfl, rfl⟩ | ⟨hf, e, he, rfl, hst⟩
  · refine ⟨rfl, by simp [hf], by simp [hf], by simp [hf], ?_, by simp [hf]⟩
    intro _
    refine ⟨rfl, resetCapture s.g_Capture ++ c.events, by simp [List.append_assoc], ?_⟩
    intro ev hmem
    rcases List.mem_append.mp hmem with h1 | h1
    · exact ⟨(resetCapture_events _ ev h1).1, (resetCapture_events _ ev h1).2.1⟩
    · exact ⟨(hev ev h1).1, (hev ev h1).2.1⟩
  · obtain ⟨hw, hh, -, -, hok⟩ := WICInitialize_spec _ _ _ _ _ _ he
    have hdims : FAILED c.hr = false → ∃ e1,
        WICEncoder.new.Initialize c.self.GetDevice c.self.GetWidth c.self.GetHeight p.wic
          = some e1 ∧
        some e.self = some e1.self ∧
        e1.self.m_width = c.self.GetWidth ∧ e1.self.m_height = c.self.GetHeight ∧
        (FAILED p.wic.CoCreateInstance.hr = false → ∃ dev, c.self.GetDevice = some dev ∧
          Event.CreateTexture2D dev (toUINT c.self.GetWidth) (toUINT c.self.GetHeight)
            p.wic.CreateTexture2D.hr ∈
              s.trace ++ resetCapture s.g_Capture ++ c.events ++ [Event.CoInitialize] ++
                resetEncoder s.g_Encoder ++ e.events) := by
      intro _
      refine ⟨e, he, rfl, hw, hh, ?_⟩
      intro hco
      obtain ⟨dev, hdv, -, -, hevs⟩ := hok hco
      exact ⟨dev, hdv, by simp [hevs]⟩
    rcases hst with ⟨hfe, rfl⟩ | ⟨hfe, rfl⟩
    · exact ⟨rfl, by simp [hf], by simp [hf, he, hfe], by simp [hf, he, hfe], by simp [hf],
        hdims⟩
    · exact ⟨rfl, by simp [hf], by simp [hf, he, hfe], by simp [hf, he, hfe], by simp [hf],
        hdims⟩

/-- The example platform keeps the COM contract. -/
theorem fallbackPlatform_honest : fallbackPlatform.Honest := by
  refine ⟨by decide, by decide, by decide, ?_, ?_, ?_⟩ <;> intro i
  · by_cases h : i = 0 <;> simp [fallbackPlatform, ComOut.Honest, FAILED, h]
  · simp [fallbackPlatform, ComOut.Honest, FAILED]
  · simp [fallbackPlatform, ComOut.Honest, FAILED]

/-- `readySession` is what `Init 0` makes of the load-time state on `readyPlatform`. -/
theorem Init_readyPlatform : Init 0 readyPlatform Session.initial = some (0, readySession) := by
  rfl

/-- Worked example of C6: `Init 0` at load time on a working platform returns 0. -/
theorem C6_witness :
    ∃ c, DXGIManager.new.Initialize 0 readyPlatform.dxgi = some c ∧
      readySession.g_Capture = some c.self ∧
      ((0 : Int) = 0 ↔ FAILED c.hr = false ∧ ∃ e,
        WICEncoder.new.Initialize c.self.GetDevice c.self.GetWidth c.self.GetHeight
          readyPlatform.wic = some e ∧ FAILED e.hr = false) :=
  match (C6_init_status 0 readyPlatform Session.initial).2 0 readySession
      Init_readyPlatform with
  | ⟨c, hc, hcap, _, _, h0, _⟩ => ⟨c, hc, hcap, h0⟩

/-! ### Encoding -/

/-- `whenSucceeded` in terms of `FAILED`. -/
theorem whenSucceeded_eq (l : EncodeLocals) (body : EncodeLocals → Option EncodeLocals) :
    whenSucceeded l body = if FAILED l.hr = true then some l else body l := by
  unfold whenSucceeded
  rw [SUCCEEDED_eq]
  cases FAILED l.hr <;> simp

/-- Lines 52-61 only add codec calls; after success on a platform that keeps the COM
contract all four pointers are set. -/
theorem lines52_61_spec (factory : Handle) (p : EncodePlatform) (events : List Event)
    (l : EncodeLocals) (h : WICEncoder.Encode.lines52_61 factory p events = some l) :
    l.stream = p.CreateStreamOnHGlobal.out ∧
    (∃ extra, l.events = events ++ extra ∧ ∀ ev ∈ extra, ev.isCodec = true) ∧
    (p.Honest → FAILED l.hr = false →
      l.stream ≠ none ∧ l.encoder ≠ none ∧ l.frame ≠ none ∧ l.props ≠ none) := by
  revert h
  unfold WICEncoder.Encode.lines52_61 EncodePlatform.Honest ComOut.Honest
  simp only [whenSucceeded_eq, EncodeLocals.call]
  cases h1 : FAILED p.CreateStreamOnHGlobal.hr <;> cases h2 : FAILED p.CreateEncoder.hr <;>
    cases h3 : FAILED p.EncoderInitialize <;> cases h4 : FAILED p.CreateNewFrame <;>
    cases he : p.CreateEncoder.out <;> intro h <;>
    simp [h1, h2, h3, h4] at h <;> subst h <;> simp [Event.isCodec, h1, h2, h3, h4, he]

/-- Lines 52-61 dereference no null pointer on a platform that keeps the COM contract. -/
theorem lines52_61_total (factory : Handle) (p : EncodePlatform) (events : List Event)
    (hp : p.Honest) : ∃ l, WICEncoder.Encode.lines52_61 factory p events = some l := by
  revert hp
  unfold WICEncoder.Encode.lines52_61 EncodePlatform.Honest ComOut.Honest
  simp only [whenSucceeded_eq, EncodeLocals.call]
  cases h1 : FAILED p.CreateStreamOnHGlobal.hr <;> cases h2 : FAILED p.CreateEncoder.hr <;>
    cases h3 : FAILED p.EncoderInitialize <;> cases h4 : FAILED p.CreateNewFrame <;>
    cases he : p.CreateEncoder.out <;> simp [h1, h2, h3, h4]

/-- Lines 63-75 keep the pointers and only add codec calls. -/
theorem lines63_75_spec (quality : Int) (p : EncodePlatform) (l1 l : EncodeLocals)
    (h : WICEncoder.Encode.lines63_75 quality p l1 = some l) :
    l.stream = l1.stream ∧ l.encoder = l1.encoder ∧ l.frame = l1.frame ∧
    l.props = l1.props ∧
    (∃ extra, l.events = l1.events ++ extra ∧ ∀ ev ∈ extra, ev.isCodec = true) ∧
    (FAILED l.hr = false → FAILED l1.hr = false) := by
  revert h
  unfold WICEncoder.Encode.lines63_75
  simp only [whenSucceeded_eq, EncodeLocals.call]
  cases h1 : FAILED l1.hr <;> cases hp : l1.props <;> cases hf : l1.frame <;> intro h <;>
    simp at h <;> subst h <;> simp [Event.isCodec, h1, hp, hf]

/-- Lines 63-75 dereference no null pointer when `frame` and `props` are set. -/
theorem lines63_75_total (quality : Int) (p : EncodePlatform) (l1 : EncodeLocals)
    (hl : FAILED l1.hr = false → l1.frame ≠ none ∧ l1.props ≠ none) :
    ∃ l, WICEncoder.Encode.lines63_75 quality p l1 = some l := by
  revert hl
  unfold WICEncoder.Encode.lines63_75
  simp only [whenSucceeded_eq, EncodeLocals.call]
  cases h1 : FAILED l1.hr <;> cases hp : l1.props <;> cases hf : l1.frame <;> simp

/-- Lines 77-91 only add codec calls; when they end in success these are exactly
`SetSize`, `SetPixelFormat`, `WritePixels` and the two commits, with the encoder's width
and height. -/
theorem lines77_91_spec (self : WICEncoder) (p : EncodePlatform) (l1 l : EncodeLocals)
    (h : WICEncoder.Encode.lines77_91 self p l1 = some l) :
    l.stream = l1.stream ∧
    (∃ extra, l.events = l1.events ++ extra ∧ (∀ ev ∈ extra, ev.isCodec = true) ∧
      (FAILED l.hr = false → ∃ frame encoder,
        extra =
          [Event.SetSize frame (toUINT self.m_width) (toUINT self.m_height) p.SetSize,
           Event.SetPixelFormat frame p.SetPixelFormat,
           Event.WritePixels frame (toUINT self.m_height) p.RowPitch
             (toUINT (p.RowPitch * self.m_height)) p.WritePixels,
           Event.FrameCommit frame p.FrameCommit,
           Event.EncoderCommit encoder p.EncoderCommit] ∧
        FAILED p.SetSize = false ∧ FAILED p.WritePixels = false)) ∧
    (FAILED l.hr = false → FAILED l1.hr = false) := by
  revert h
  unfold WICEncoder.Encode.lines77_91
  simp only [whenSucceeded_eq, EncodeLocals.call]
  cases h1 : FAILED l1.hr
  swap
  · intro h
    simp at h
    subst h
    simp [h1]
  cases hf : l1.frame
  · simp
  cases h2 : FAILED p.SetSize
  swap
  · intro h
    simp [h2] at h
    subst h
    simp [Event.isCodec, h2]
  cases h3 : FAILED p.SetPixelFormat
  swap
  · intro h
    simp [h2, h3] at h
    subst h
    simp [Event.isCodec, h3]
  cases h4 : FAILED p.WritePixels
  swap
  · intro h
    simp [h2, h3, h4] at h
    subst h
    simp [Event.isCodec, h4]
  cases h5 : FAILED p.FrameCommit
  swap
  · intro h
    simp [h2, h3, h4, h5] at h
    subst h
    simp [Event.isCodec, h5]
  cases he : l1.encoder
  · simp [h2, h3, h4, h5]
  intro h
  simp [h2, h3, h4, h5] at h
  subst h
  simp [Event.isCodec, h1, h2, h4]

/-- Lines 77-91 dereference no null pointer when `frame` and `encoder` are set. -/
theorem lines77_91_total (self : WICEncoder) (p : EncodePlatform) (l1 : EncodeLocals)
    (hl : FAILED l1.hr = false → l1.frame ≠ none ∧ l1.encoder ≠ none) :
    ∃ l, WICEncoder.Encode.lines77_91 self p l1 = some l := by
  unfold WICEncoder.Encode.lines77_91
  simp only [whenSucceeded_eq, EncodeLocals.call]
  cases h1 : FAILED l1.hr
  swap
  · simp
  obtain ⟨hf, he⟩ := hl h1
  obtain ⟨frame, hf⟩ := Option.ne_none_iff_exists'.mp hf
  obtain ⟨encoder, he⟩ := Option.ne_none_iff_exists'.mp he
  simp only [hf, he]
  cases h2 : FAILED p.SetSize <;> cases h3 : FAILED p.SetPixelFormat <;>
    cases h4 : FAILED p.WritePixels <;> cases h5 : FAILED p.FrameCommit <;>
    simp [h2, h3, h4, h5]

/-- The three ways `Encode` can run, read off its result: the guard of line 41, a failed
`Map`, or a `Map` that succeeded followed by the codec calls, `Unmap` and (on success only)
the read-back of the stream. -/
theorem Encode_spec (self : WICEncoder) (texture : Handle) (context : Option Handle)
    (quality : Int) (outData : List Nat) (p : EncodePlatform) (e : Encoded)
    (h : self.Encode texture context quality outData p = some e) :
    ((self.m_stagingTexture = none ∨ self.m_factory = none) ∧
      e = ⟨E_FAIL, outData, []⟩) ∨
    (∃ staging ctx, self.m_stagingTexture = some staging ∧ self.m_factory ≠ none ∧
      context = some ctx ∧ FAILED p.Map = true ∧
      e = ⟨p.Map, outData,
        [Event.CopyResource ctx staging texture, Event.Map ctx staging p.Map]⟩) ∨
    (∃ staging ctx codec tail, self.m_stagingTexture = some staging ∧
      self.m_factory ≠ none ∧ context = some ctx ∧ FAILED p.Map = false ∧
      e.events = [Event.CopyResource ctx staging texture, Event.Map ctx staging p.Map] ++
        codec ++ [Event.Unmap ctx staging] ++ tail ∧
      (∀ ev ∈ codec, ev.isCodec = true) ∧ (∀ ev ∈ tail, ev.isCodec = true) ∧
      (FAILED e.hr = true → e.outData = outData ∧ tail = []) ∧
      (FAILED e.hr = false → ∃ frame encoder before,
        codec = before ++
          [Event.SetSize frame (toUINT self.m_width) (toUINT self.m_height) p.SetSize,
           Event.SetPixelFormat frame p.SetPixelFormat,
           Event.WritePixels frame (toUINT self.m_height) p.RowPitch
             (toUINT (p.RowPitch * self.m_height)) p.WritePixels,
           Event.FrameCommit frame p.FrameCommit,
           Event.EncoderCommit encoder p.EncoderCommit] ∧
        FAILED p.SetSize = false ∧ FAILED p.WritePixels = false)) := by
  unfold WICEncoder.Encode at h
  cases hs : self.m_stagingTexture with
  | none => simp [hs] at h; exact Or.inl ⟨Or.inl rfl, h.symm⟩
  | some staging =>
  cases hf : self.m_factory with
  | none => simp [hs, hf] at h; exact Or.inl ⟨Or.inr rfl, h.symm⟩
  | some factory =>
  cases hc : context with
  | none => simp [hs, hf, hc] at h
  | some ctx =>
  cases hm : FAILED p.Map with
  | true =>
    simp [hs, hf, hc, hm] at h
    exact Or.inr (Or.inl ⟨staging, ctx, rfl, by simp, rfl, rfl, h.symm⟩)
  | false =>
    simp only [hs, hf, hc, hm, Bool.false_eq_true, if_false] at h
    refine Or.inr (Or.inr ?_)
    cases h1 : WICEncoder.Encode.lines52_61 factory p
        [Event.CopyResource ctx staging texture, Event.Map ctx staging p.Map] with
    | none => simp [h1] at h
    | some l1 =>
    cases h2 : WICEncoder.Encode.lines63_75 quality p l1 with
    | none => simp [h1, h2] at h
    | some l2 =>
    cases h3 : WICEncoder.Encode.lines77_91 self p l2 with
    | none => simp [h1, h2, h3] at h
    | some l3 =>
    simp only [h1, h2, h3, Option.some_bind, SUCCEEDED_eq] at h
    obtain ⟨-, ⟨x1, hx1, hc1⟩, -⟩ := lines52_61_spec _ _ _ _ h1
    obtain ⟨-, -, -, -, ⟨x2, hx2, hc2⟩, -⟩ := lines63_75_spec _ _ _ _ h2
    obtain ⟨-, ⟨x3, hx3, hc3, hdim⟩, -⟩ := lines77_91_spec _ _ _ _ h3
    have hcodec : ∀ ev ∈ x1 ++ x2 ++ x3, ev.isCodec = true := by
      intro ev hev
      simp only [List.mem_append] at hev
      rcases hev with (hev | hev) | hev
      · exact hc1 ev hev
      · exact hc2 ev hev
      · exact hc3 ev hev
    cases hl : FAILED l3.hr with
    | true =>
      simp [hl] at h
      subst h
      refine ⟨staging, ctx, x1 ++ x2 ++ x3, [], rfl, by simp, rfl, rfl, ?_, hcodec, by simp,
        by simp, by simp [hl]⟩
      simp [hx3, hx2, hx1]
    | false =>
      cases hst : l3.stream with
      | none => simp [hl, hst] at h
      | some stream =>
        simp [hl, hst] at h
        subst h
        refine ⟨staging, ctx, x1 ++ x2 ++ x3,
          [Event.StreamStat stream, Event.StreamSeek stream,
            Event.StreamRead stream (toUINT p.cbSize)], rfl, by simp, rfl, rfl, ?_, hcodec,
          by simp [Event.isCodec], by simp [hl], ?_⟩
        · simp [hx3, hx2, hx1]
        · intro _
          obtain ⟨frame, encoder, hx, hs2, hw2⟩ := hdim hl
          exact ⟨frame, encoder, x1 ++ x2, by rw [hx], hs2, hw2⟩

/-- On a platform that keeps the COM contract, and given a device context, `Encode`
dereferences no null pointer. -/
theorem Encode_total (self : WICEncoder) (texture : Handle) (context : Option Handle)
    (quality : Int) (outData : List Nat) (p : EncodePlatform) (hp : p.Honest)
    (hctx : context ≠ none) :
    ∃ e, self.Encode texture context quality outData p = some e := by
  obtain ⟨ctx, hc⟩ := Option.ne_none_iff_exists'.mp hctx
  unfold WICEncoder.Encode
  cases hs : self.m_stagingTexture with
  | none => simp
  | some staging =>
  cases hf : self.m_factory with
  | none => simp
  | some factory =>
  cases hm : FAILED p.Map with
  | true => simp [hc, hm]
  | false =>
    obtain ⟨l1, h1⟩ := lines52_61_total factory p
      [Event.CopyResource ctx staging texture, Event.Map ctx staging p.Map] hp
    obtain ⟨hs1, -, hg1⟩ := lines52_61_spec _ _ _ _ h1
    obtain ⟨l2, h2⟩ := lines63_75_total quality p l1
      (fun hl => ⟨(hg1 hp hl).2.2.1, (hg1 hp hl).2.2.2⟩)
    obtain ⟨hs2, he2, hf2, -, -, hl2⟩ := lines63_75_spec _ _ _ _ h2
    obtain ⟨l3, h3⟩ := lines77_91_total self p l2
      (fun hl => ⟨hf2 ▸ (hg1 hp (hl2 hl)).2.2.1, he2 ▸ (hg1 hp (hl2 hl)).2.1⟩)
    obtain ⟨hs3, -, hl3⟩ := lines77_91_spec _ _ _ _ h3
    simp only [hc, hm, h1, h2, h3, Option.some_bind, SUCCEEDED_eq, Bool.false_eq_true,
      if_false]
    cases hl : FAILED l3.hr with
    | true => simp
    | false =>
      have hstream : l3.stream ≠ none := by
        rw [hs3, hs2]
        exact (hg1 hp (hl2 (hl3 hl))).1
      obtain ⟨stream, hst⟩ := Option.ne_none_iff_exists'.mp hstream
      simp [hst]

/-- A codec call is none of the calls the observers look for. -/
theorem isCodec_spec (ev : Event) (h : ev.isCodec = true) :
    ev.isUnmap = false ∧ ev.isMapped = false ∧ ev.isAcquire = false ∧
    ev.isAcquired = false ∧ ev.isReleaseFrame = false ∧
    (∀ c t hr, ev ≠ Event.Map c t hr) := by
  cases ev <;> simp_all [Event.isCodec, Event.isUnmap, Event.isMapped, Event.isAcquire,
    Event.isAcquired, Event.isReleaseFrame]

/-- Filtering codec calls by a predicate that holds of no codec call leaves nothing. -/
theorem filter_codec (f : Event → Bool) (xs : List Event)
    (hf : ∀ ev, ev.isCodec = true → f ev = false)
    (h : ∀ ev ∈ xs, ev.isCodec = true) : xs.filter f = [] := by
  rw [List.filter_eq_nil_iff]
  intro ev hev
  simp [hf ev (h ev hev)]

/-- `stagingMapped` runs through a concatenation from left to right. -/
theorem stagingMapped_append (t : Handle) (b : Bool) (xs ys : List Event) :
    stagingMapped t b (xs ++ ys) = stagingMapped t (stagingMapped t b xs) ys := by
  simp [stagingMapped, List.foldl_append]

/-- Codec calls do not change what is mapped. -/
theorem stagingMapped_codec (t : Handle) (b : Bool) (xs : List Event)
    (h : ∀ ev ∈ xs, ev.isCodec = true) : stagingMapped t b xs = b := by
  induction xs generalizing b with
  | nil => rfl
  | cons ev xs ih =>
    have hev : ev.isCodec = true := h ev (by simp)
    have hxs : ∀ x ∈ xs, x.isCodec = true := fun x hx => h x (by simp [hx])
    have hstep : stagingMapped t b (ev :: xs) = stagingMapped t b xs := by
      cases ev <;> first | rfl | exact Bool.noConfusion hev
    rw [hstep, ih b hxs]

/-- C5: `Encode` never returns with the staging surface mapped.  On a platform that keeps
the COM contract, called with a device context, it returns; and whenever it returns, its
platform calls contain as many `Unmap` calls as successful `Map` calls (at most one), no
surface is mapped after them, and a successful `Map` is followed by exactly one `Unmap`,
on the same context and surface, with none before it.  When `Map` was not called or
failed there is no `Unmap`. -/
theorem C5_staging_unmapped_on_return (self : WICEncoder) (texture : Handle)
    (context : Option Handle) (quality : Int) (outData : List Nat) (p : EncodePlatform) :
    (p.Honest → context ≠ none →
      ∃ e, self.Encode texture context quality outData p = some e) ∧
    ∀ e, self.Encode texture context quality outData p = some e →
      (e.events.filter Event.isUnmap).length = (e.events.filter Event.isMapped).length ∧
      (e.events.filter Event.isMapped).length ≤ 1 ∧
      (∀ t, stagingMapped t false e.events = false) ∧
      (∀ ctx staging hr, Event.Map ctx staging hr ∈ e.events → FAILED hr = false →
        ∃ pre post, e.events = pre ++ Event.Map ctx staging hr :: post ∧
          pre.filter Event.isUnmap = [] ∧
          post.filter Event.isUnmap = [Event.Unmap ctx staging]) := by
  refine ⟨Encode_total self texture context quality outData p, ?_⟩
  intro e h
  have hU := fun xs => filter_codec Event.isUnmap xs (fun ev hev => (isCodec_spec ev hev).1)
  have hM := fun xs => filter_codec Event.isMapped xs (fun ev hev => (isCodec_spec ev hev).2.1)
  rcases Encode_spec self texture context quality outData p e h with
    ⟨-, rfl⟩ | ⟨staging, ctx, -, -, -, hm, rfl⟩ |
    ⟨staging, ctx, codec, tail, -, -, -, hm, hev, hc, ht, -, -⟩
  · simp [stagingMapped]
  · refine ⟨by simp [Event.isUnmap, Event.isMapped, SUCCEEDED_eq, hm],
      by simp [Event.isMapped, SUCCEEDED_eq, hm],
      fun t => by simp [stagingMapped, SUCCEEDED_eq, hm], ?_⟩
    intro ctx1 staging1 hr hmem hok
    simp only [List.mem_cons, List.mem_singleton, List.not_mem_nil, or_false] at hmem
    rcases hmem with hmem | hmem
    · cases hmem
    · cases hmem
      rw [hm] at hok
      cases hok
  · rw [hev]
    refine ⟨?_, ?_, ?_, ?_⟩
    · simp [List.filter_append, hU codec hc, hU tail ht, hM codec hc, hM tail ht,
        Event.isUnmap, Event.isMapped, SUCCEEDED_eq, hm]
    · simp [List.filter_append, hM codec hc, hM tail ht, Event.isUnmap, Event.isMapped,
        SUCCEEDED_eq, hm]
    · intro t
      rw [stagingMapped_append, stagingMapped_append, stagingMapped_append,
        stagingMapped_codec _ _ tail ht, stagingMapped_codec _ _ codec hc]
      by_cases hts : staging = t <;> simp [stagingMapped, hts]
    · intro ctx1 staging1 hr hmem _
      simp only [List.mem_append, List.mem_cons, List.mem_singleton, List.not_mem_nil,
        or_false] at hmem
      rcases hmem with ((((hmem | hmem) | hmem) | hmem) | hmem)
      · cases hmem
      · cases hmem
        refine ⟨[Event.CopyResource ctx staging texture],
          codec ++ [Event.Unmap ctx staging] ++ tail, by simp, by simp [Event.isUnmap], ?_⟩
        simp [List.filter_append, hU codec hc, hU tail ht, Event.isUnmap]
      · exact absurd rfl ((isCodec_spec _ (hc _ hmem)).2.2.2.2.2 ctx1 staging1 hr)
      · cases hmem
      · exact absurd rfl ((isCodec_spec _ (ht _ hmem)).2.2.2.2.2 ctx1 staging1 hr)

/-- Worked example of C5: `WritePixels` fails after a successful `Map`. -/
theorem C5_witness :
    ∃ e, readyEncoder.Encode 31 (some 2) 80 [] failingEncodePlatform = some e ∧
      FAILED e.hr = true ∧
      (e.events.filter Event.isUnmap).length = (e.events.filter Event.isMapped).length ∧
      (e.events.filter Event.isMapped).length ≤ 1 ∧
      (∀ t, stagingMapped t false e.events = false) :=
  ⟨_, rfl, by decide,
    ((C5_staging_unmapped_on_return readyEncoder 31 (some 2) 80 [] failingEncodePlatform).2
      _ rfl).1,
    ((C5_staging_unmapped_on_return readyEncoder 31 (some 2) 80 [] failingEncodePlatform).2
      _ rfl).2.1,
    ((C5_staging_unmapped_on_return readyEncoder 31 (some 2) 80 [] failingEncodePlatform).2
      _ rfl).2.2.1⟩

/-! ### Capture -/

/-- The four paths of `CaptureFrame`, read off its result. -/
theorem CaptureFrame_spec (self : DXGIManager) (texture : Option Handle) (timeoutMs : Int)
    (p : FramePlatform) (f : Captured)
    (h : self.CaptureFrame texture timeoutMs p = some f) :
    (self.m_duplication = none ∧ f = ⟨E_POINTER, texture, []⟩) ∨
    (∃ d, self.m_duplication = some d ∧ p.AcquireNextFrame.hr = DXGI_ERROR_WAIT_TIMEOUT ∧
      f = ⟨p.AcquireNextFrame.hr, texture,
        [Event.AcquireNextFrame d (toUINT timeoutMs) p.AcquireNextFrame.hr]⟩) ∨
    (∃ d, self.m_duplication = some d ∧ p.AcquireNextFrame.hr ≠ DXGI_ERROR_WAIT_TIMEOUT ∧
      FAILED p.AcquireNextFrame.hr = true ∧
      f = ⟨p.AcquireNextFrame.hr, texture,
        [Event.AcquireNextFrame d (toUINT timeoutMs) p.AcquireNextFrame.hr,
          Event.ReleaseFrame d]⟩) ∨
    (∃ d resource, self.m_duplication = some d ∧ FAILED p.AcquireNextFrame.hr = false ∧
      p.AcquireNextFrame.out = some resource ∧
      f = ⟨p.QueryTexture.hr, p.QueryTexture.out,
        [Event.AcquireNextFrame d (toUINT timeoutMs) p.AcquireNextFrame.hr,
          Event.QueryTexture resource p.QueryTexture.hr]⟩) := by
  unfold DXGIManager.CaptureFrame at h
  cases hd : self.m_duplication with
  | none => simp [hd] at h; exact Or.inl ⟨rfl, h.symm⟩
  | some d =>
    by_cases ht : p.AcquireNextFrame.hr = DXGI_ERROR_WAIT_TIMEOUT
    · simp [hd, ht] at h
      exact Or.inr (Or.inl ⟨d, rfl, ht, by rw [← h, ht]⟩)
    cases hf : FAILED p.AcquireNextFrame.hr with
    | true =>
      simp [hd, ht, hf] at h
      exact Or.inr (Or.inr (Or.inl ⟨d, rfl, ht, rfl, h.symm⟩))
    | false =>
      cases hr : p.AcquireNextFrame.out with
      | none => simp [hd, ht, hf, hr] at h
      | some resource =>
        simp [hd, ht, hf, hr] at h
        exact Or.inr (Or.inr (Or.inr ⟨d, resource, rfl, rfl, rfl, h.symm⟩))

/-- On a platform that keeps the COM contract `CaptureFrame` dereferences no null
pointer. -/
theorem CaptureFrame_total (self : DXGIManager) (texture : Option Handle) (timeoutMs : Int)
    (p : FramePlatform) (hp : p.Honest) :
    ∃ f, self.CaptureFrame texture timeoutMs p = some f := by
  unfold DXGIManager.CaptureFrame
  cases hd : self.m_duplication with
  | none => simp
  | some d =>
    by_cases ht : p.AcquireNextFrame.hr = DXGI_ERROR_WAIT_TIMEOUT
    · simp [ht]
    cases hf : FAILED p.AcquireNextFrame.hr with
    | true => simp [ht, hf]
    | false =>
      obtain ⟨resource, hr⟩ := Option.ne_none_iff_exists'.mp (hp.1.2 hf)
      simp [ht, hr, hf]

/-- The paths of `CaptureAndEncode`, read off its result. -/
theorem CaptureAndEncode_spec (quality : Int) (p : CapturePlatform) (s s1 : Session)
    (r : Reply) (h : CaptureAndEncode quality p s = some (r, s1)) :
    ((s.g_Capture = none ∨ s.g_Encoder = none) ∧ r = ⟨-1, none⟩ ∧ s1 = s) ∨
    (∃ capture encoder f, s.g_Capture = some capture ∧ s.g_Encoder = some encoder ∧
      capture.CaptureFrame none 100 p.frame = some f ∧
      ((f.hr = DXGI_ERROR_WAIT_TIMEOUT ∧ r = ⟨0, none⟩ ∧
          s1 = ⟨s.g_Capture, s.g_Encoder, s.g_Buffer, s.trace ++ f.events⟩) ∨
       (f.hr ≠ DXGI_ERROR_WAIT_TIMEOUT ∧ (FAILED f.hr = true ∨ f.texture = none) ∧
          r = ⟨-2, none⟩ ∧
          s1 = ⟨s.g_Capture, s.g_Encoder, s.g_Buffer, s.trace ++ f.events⟩) ∨
       (f.hr ≠ DXGI_ERROR_WAIT_TIMEOUT ∧ FAILED f.hr = false ∧ ∃ texture e,
          f.texture = some texture ∧
          encoder.Encode texture capture.GetContext quality s.g_Buffer p.encode = some e ∧
          s1 = ⟨s.g_Capture, s.g_Encoder, e.outData,
            s.trace ++ f.events ++ e.events ++ capture.ReleaseCurrentFrame⟩ ∧
          ((FAILED e.hr = true ∧ r = ⟨-3, none⟩) ∨
           (FAILED e.hr = false ∧ r = ⟨1, some (e.outData, toINT e.outData.length)⟩))))) := by
  unfold CaptureAndEncode at h
  cases hc : s.g_Capture with
  | none =>
    simp [hc] at h
    exact Or.inl ⟨Or.inl rfl, h.1.symm, h.2.symm⟩
  | some capture =>
  cases he : s.g_Encoder with
  | none =>
    simp [hc, he] at h
    exact Or.inl ⟨Or.inr rfl, h.1.symm, h.2.symm⟩
  | some encoder =>
  cases hf : capture.CaptureFrame none 100 p.frame with
  | none => simp [hc, he, hf] at h
  | some f =>
  refine Or.inr ⟨capture, encoder, f, rfl, rfl, hf, ?_⟩
  by_cases ht : f.hr = DXGI_ERROR_WAIT_TIMEOUT
  · simp [hc, he, hf, ht] at h
    refine Or.inl ⟨ht, h.1.symm, ?_⟩
    rw [← h.2]
  cases hfl : FAILED f.hr with
  | true =>
    simp [hc, he, hf, ht, hfl] at h
    refine Or.inr (Or.inl ⟨ht, Or.inl rfl, h.1.symm, ?_⟩)
    rw [← h.2]
  | false =>
  cases htx : f.texture with
  | none =>
    simp [hc, he, hf, ht, hfl, htx] at h
    refine Or.inr (Or.inl ⟨ht, Or.inr rfl, h.1.symm, ?_⟩)
    rw [← h.2]
  | some texture =>
  cases hen : encoder.Encode texture capture.GetContext quality s.g_Buffer p.encode with
  | none => simp [hc, he, hf, ht, hfl, htx, hen] at h
  | some e =>
  refine Or.inr (Or.inr ⟨ht, rfl, texture, e, rfl, hen, ?_⟩)
  cases hef : FAILED e.hr with
  | true =>
    simp [hc, he, hf, ht, hfl, htx, hen, hef] at h
    refine ⟨?_, Or.inl ⟨rfl, h.1.symm⟩⟩
    rw [← h.2]
    simp [List.append_assoc]
  | false =>
    simp [hc, he, hf, ht, hfl, htx, hen, hef] at h
    refine ⟨?_, Or.inr ⟨rfl, h.1.symm⟩⟩
    rw [← h.2]
    simp [List.append_assoc]

/-- On a platform that keeps the COM contract, in a session whose FrameSource is `Bound`,
`CaptureAndEncode` returns. -/
theorem CaptureAndEncode_total (quality : Int) (p : CapturePlatform) (s : Session)
    (hb : ∀ capture, s.g_Capture = some capture → capture.Bound) (hp : p.Honest) :
    ∃ r s1, CaptureAndEncode quality p s = some (r, s1) := by
  unfold CaptureAndEncode
  cases hc : s.g_Capture with
  | none => simp
  | some capture =>
  cases he : s.g_Encoder with
  | none => simp
  | some encoder =>
  obtain ⟨f, hf⟩ := CaptureFrame_total capture none 100 p.frame hp.1
  by_cases ht : f.hr = DXGI_ERROR_WAIT_TIMEOUT
  · simp [hf, ht]
  cases hfl : FAILED f.hr with
  | true => simp [hf, ht, hfl]
  | false =>
  cases htx : f.texture with
  | none => simp [hf, ht, hfl, htx]
  | some texture =>
  have hctx : capture.GetContext ≠ none := by
    apply hb capture hc
    rcases CaptureFrame_spec _ _ _ _ _ hf with ⟨-, rfl⟩ | ⟨d, hd, -⟩ | ⟨d, hd, -⟩ |
      ⟨d, _, hd, -⟩
    · simp [FAILED_E_POINTER] at hfl
    · simp [hd]
    · simp [hd]
    · simp [hd]
  obtain ⟨e, hen⟩ := Encode_total encoder texture capture.GetContext quality s.g_Buffer
    p.encode hp.2 hctx
  cases hef : FAILED e.hr <;> simp [hf, ht, hfl, htx, hen, hef]

/-- C1: the status of `CaptureAndEncode` on a session whose FrameSource and FrameEncoder
exist.  On a platform that keeps the COM contract (and with the FrameSource `Bound`) the
call returns; and whenever it returns, with `f` what `CaptureFrame` hands back: status 0
exactly when `f` is the timeout; -2 exactly when `f` is not the timeout and is a failure
or carries no texture; -3 exactly when `f` carries a texture and `Encode` of it fails; 1
exactly when `f` carries a texture and `Encode` of it succeeds.  On status 1 the vector
is as `Encode` left it, and the pointer and length handed out are that vector and its
size converted to `int` (the size itself whenever it is below 2^31). -/
theorem C1_capture_status (quality : Int) (p : CapturePlatform) (s : Session)
    (capture : DXGIManager) (encoder : WICEncoder)
    (hc : s.g_Capture = some capture) (he : s.g_Encoder = some encoder) :
    (capture.Bound → p.Honest → ∃ r s1, CaptureAndEncode quality p s = some (r, s1)) ∧
    ∀ r s1, CaptureAndEncode quality p s = some (r, s1) →
      ∃ f, capture.CaptureFrame none 100 p.frame = some f ∧
      (r.status = 0 ↔ f.hr = DXGI_ERROR_WAIT_TIMEOUT) ∧
      (r.status = -2 ↔
        f.hr ≠ DXGI_ERROR_WAIT_TIMEOUT ∧ (FAILED f.hr = true ∨ f.texture = none)) ∧
      (r.status = -3 ↔ FAILED f.hr = false ∧ ∃ texture e, f.texture = some texture ∧
        encoder.Encode texture capture.GetContext quality s.g_Buffer p.encode = some e ∧
        FAILED e.hr = true) ∧
      (r.status = 1 ↔ FAILED f.hr = false ∧ ∃ texture e, f.texture = some texture ∧
        encoder.Encode texture capture.GetContext quality s.g_Buffer p.encode = some e ∧
        FAILED e.hr = false) ∧
      (r.status = 1 → ∃ texture e, f.texture = some texture ∧
        encoder.Encode texture capture.GetContext quality s.g_Buffer p.encode = some e ∧
        s1.g_Buffer = e.outData ∧
        r.out = some (e.outData, toINT e.outData.length) ∧
        (e.outData.length < 2147483648 → toINT e.outData.length = e.outData.length)) := by
  refine ⟨fun hb hp => CaptureAndEncode_total quality p s
    (fun c hc1 => by rw [hc] at hc1; cases hc1; exact hb) hp, ?_⟩
  intro r s1 h
  rcases CaptureAndEncode_spec quality p s s1 r h with
    ⟨hnone, -⟩ | ⟨capture1, encoder1, f, hc1, he1, hf, hcase⟩
  · rw [hc, he] at hnone
    simp at hnone
  rw [hc] at hc1
  rw [he] at he1
  cases hc1
  cases he1
  refine ⟨f, hf, ?_⟩
  rcases hcase with ⟨ht, rfl, -⟩ | ⟨ht, hor, rfl, -⟩ |
    ⟨ht, hfl, texture, e, htx, hen, hs1, (⟨hef, rfl⟩ | ⟨hef, rfl⟩)⟩
  · have hto : FAILED DXGI_ERROR_WAIT_TIMEOUT = true := by decide
    simp [ht, hto]
  · rcases hor with hfl | htx
    · simp [ht, hfl]
    · simp [ht, htx]
  · simp [ht, hfl, htx, hen, hef]
  · refine ⟨by simp [ht], by simp [ht, hfl, htx], by simp [hfl, htx, hen, hef],
      by simp [hfl, htx, hen, hef], ?_⟩
    intro _
    refine ⟨texture, e, htx, hen, by rw [hs1], rfl, ?_⟩
    intro hlen
    unfold toINT
    omega

/-- The example platform keeps the COM contract. -/
theorem capturePlatform_honest : capturePlatform.Honest := by
  refine ⟨⟨by decide, by decide⟩, by decide, by decide, ?_⟩
  intro _
  exact ⟨by decide, by decide⟩

/-- The example platform keeps the COM contract. -/
theorem failingCapturePlatform_honest : failingCapturePlatform.Honest := by
  refine ⟨⟨by decide, by decide⟩, by decide, by decide, ?_⟩
  intro _
  exact ⟨by decide, by decide⟩

/-- The example FrameSource has its device context. -/
theorem readyCapture_bound : readyCapture.Bound := by
  intro _
  decide

/-- Worked example of C1: the frame is acquired and `WritePixels` fails. -/
theorem C1_witness :
    (∃ r s1, CaptureAndEncode 80 failingCapturePlatform readySession = some (r, s1)) ∧
    ∃ f, readyCapture.CaptureFrame none 100 failingCapturePlatform.frame = some f ∧
      ((-3 : Int) = -3 ↔ FAILED f.hr = false ∧ ∃ texture e, f.texture = some texture ∧
        readyEncoder.Encode texture readyCapture.GetContext 80 readySession.g_Buffer
          failingCapturePlatform.encode = some e ∧
        FAILED e.hr = true) :=
  ⟨(C1_capture_status 80 failingCapturePlatform readySession readyCapture readyEncoder
      rfl rfl).1 readyCapture_bound failingCapturePlatform_honest,
    match (C1_capture_status 80 failingCapturePlatform readySession readyCapture
      readyEncoder rfl rfl).2 ⟨-3, none⟩
      (sessionAfter [Call.CaptureAndEncode 80 failingCapturePlatform] readySession) rfl with
    | ⟨f, hf, _, _, h3, _⟩ => ⟨f, hf, h3⟩⟩

/-- A failing `Encode` hands the vector back as it got it. -/
theorem Encode_failed_keeps (self : WICEncoder) (texture : Handle) (context : Option Handle)
    (quality : Int) (outData : List Nat) (p : EncodePlatform) (e : Encoded)
    (h : self.Encode texture context quality outData p = some e)
    (hf : FAILED e.hr = true) : e.outData = outData := by
  rcases Encode_spec self texture context quality outData p e h with
    ⟨-, rfl⟩ | ⟨_, _, -, -, -, -, rfl⟩ | ⟨_, _, _, _, -, -, -, -, -, -, -, hk, -⟩
  · rfl
  · rfl
  · exact (hk hf).1

/-- C8: a `CaptureAndEncode` that returns a status other than 1 leaves the shared vector
as it was and stores nothing through `outData` and `outSize`; and an `Encode` that fails
hands the vector back unchanged. -/
theorem C8_no_output_without_success (quality : Int) (p : CapturePlatform) (s s1 : Session)
    (r : Reply) (h : CaptureAndEncode quality p s = some (r, s1)) (hne : r.status ≠ 1) :
    s1.g_Buffer = s.g_Buffer ∧ r.out = none ∧
    (r.status = -1 ∨ r.status = 0 ∨ r.status = -2 ∨ r.status = -3) ∧
    (∀ (encoder : WICEncoder) texture context outData e,
      encoder.Encode texture context quality outData p.encode = some e →
      FAILED e.hr = true → e.outData = outData) := by
  refine ⟨?_, ?_, ?_, fun encoder texture context outData e he hf =>
    Encode_failed_keeps encoder texture context quality outData p.encode e he hf⟩ <;>
  rcases CaptureAndEncode_spec quality p s s1 r h with
    ⟨-, rfl, rfl⟩ | ⟨capture, encoder, f, -, -, -, hcase⟩
  · rfl
  · rcases hcase with ⟨-, rfl, rfl⟩ | ⟨-, -, rfl, rfl⟩ |
      ⟨-, -, texture, e, -, hen, rfl, (⟨hef, rfl⟩ | ⟨hef, rfl⟩)⟩
    · rfl
    · rfl
    · exact Encode_failed_keeps _ _ _ _ _ _ _ hen hef
    · exact absurd rfl hne
  · rfl
  · rcases hcase with ⟨-, rfl, rfl⟩ | ⟨-, -, rfl, rfl⟩ |
      ⟨-, -, texture, e, -, hen, rfl, (⟨hef, rfl⟩ | ⟨hef, rfl⟩)⟩
    · rfl
    · rfl
    · rfl
    · exact absurd rfl hne
  · exact Or.inl rfl
  · rcases hcase with ⟨-, rfl, rfl⟩ | ⟨-, -, rfl, rfl⟩ |
      ⟨-, -, texture, e, -, hen, rfl, (⟨hef, rfl⟩ | ⟨hef, rfl⟩)⟩
    · exact Or.inr (Or.inl rfl)
    · exact Or.inr (Or.inr (Or.inl rfl))
    · exact Or.inr (Or.inr (Or.inr rfl))
    · exact absurd rfl hne

/-- Worked example of C8: `Encode` fails with three bytes in the vector. -/
theorem C8_witness :
    ∃ r s1, CaptureAndEncode 80 failingCapturePlatform
        ⟨some readyCapture, some readyEncoder, [1, 2, 3], []⟩ = some (r, s1) ∧
      r.status = -3 ∧ s1.g_Buffer = [1, 2, 3] ∧ r.out = none :=
  have h : CaptureAndEncode 80 failingCapturePlatform
      ⟨some readyCapture, some readyEncoder, [1, 2, 3], []⟩ = some (⟨-3, none⟩, _) := rfl
  ⟨_, _, h, rfl,
    (C8_no_output_without_success 80 failingCapturePlatform _ _ _ h (by decide)).1,
    (C8_no_output_without_success 80 failingCapturePlatform _ _ _ h (by decide)).2.1⟩

/-! ### Sequences of captures -/

/-- `run` on a non-empty sequence. -/
theorem run_cons (c : Call) (cs : List Call) (s : Session) :
    run (c :: cs) s =
      (step c s).bind fun r => (run cs r.2).map fun rs => (r.1 :: rs.1, rs.2) := by
  cases h1 : step c s with
  | none => simp [run, h1]
  | some r =>
    obtain ⟨r1, s1⟩ := r
    cases h2 : run cs s1 with
    | none => simp [run, h1, h2]
    | some rs =>
      obtain ⟨rs1, s2⟩ := rs
      simp [run, h1, h2]

/-- `Encode` calls neither `AcquireNextFrame` nor `ReleaseFrame`. -/
theorem Encode_events_no_frame (self : WICEncoder) (texture : Handle)
    (context : Option Handle) (quality : Int) (outData : List Nat) (p : EncodePlatform)
    (e : Encoded) (h : self.Encode texture context quality outData p = some e) :
    ∀ ev ∈ e.events, ev.isReleaseFrame = false ∧ ev.isAcquire = false ∧
      ev.isAcquired = false := by
  have hcodec : ∀ ev : Event, ev.isCodec = true →
      ev.isReleaseFrame = false ∧ ev.isAcquire = false ∧ ev.isAcquired = false :=
    fun ev hev => ⟨(isCodec_spec ev hev).2.2.2.2.1, (isCodec_spec ev hev).2.2.1,
      (isCodec_spec ev hev).2.2.2.1⟩
  rcases Encode_spec self texture context quality outData p e h with
    ⟨-, rfl⟩ | ⟨_, _, -, -, -, -, rfl⟩ | ⟨_, _, codec, tail, -, -, -, -, hev, hc, ht, -, -⟩
  · simp
  · simp [Event.isReleaseFrame, Event.isAcquire, Event.isAcquired]
  · rw [hev]
    intro ev hmem
    simp only [List.mem_append, List.mem_cons, List.mem_singleton, List.not_mem_nil,
      or_false] at hmem
    rcases hmem with ((((rfl | rfl) | hmem) | rfl) | hmem)
    · simp [Event.isReleaseFrame, Event.isAcquire, Event.isAcquired]
    · simp [Event.isReleaseFrame, Event.isAcquire, Event.isAcquired]
    · exact hcodec ev (hc ev hmem)
    · simp [Event.isReleaseFrame, Event.isAcquire, Event.isAcquired]
    · exact hcodec ev (ht ev hmem)

/-- One `CaptureAndEncode` whose acquisition yields a texture: the frame is released once,
as the last platform call, after the calls of `Encode`. -/
theorem capture_step (quality : Int) (p : CapturePlatform) (s : Session)
    (capture : DXGIManager) (encoder : WICEncoder)
    (hc : s.g_Capture = some capture) (he : s.g_Encoder = some encoder)
    (hctx : capture.m_context ≠ none) (hp : p.encode.Honest)
    (hy : ∃ f texture, capture.CaptureFrame none 100 p.frame = some f ∧
      FAILED f.hr = false ∧ f.texture = some texture) :
    ∃ r s1 f texture e d, CaptureAndEncode quality p s = some (r, s1) ∧
      capture.CaptureFrame none 100 p.frame = some f ∧ f.texture = some texture ∧
      encoder.Encode texture capture.GetContext quality s.g_Buffer p.encode = some e ∧
      capture.m_duplication = some d ∧
      s1.g_Capture = s.g_Capture ∧ s1.g_Encoder = s.g_Encoder ∧
      s1.trace = s.trace ++ f.events ++ e.events ++ [Event.ReleaseFrame d] ∧
      (f.events ++ e.events).filter Event.isReleaseFrame = [] ∧
      (f.events ++ e.events).filter Event.isAcquired =
        [Event.AcquireNextFrame d 100 p.frame.AcquireNextFrame.hr] ∧
      ((r.status = 1 ∧ FAILED e.hr = false) ∨ (r.status = -3 ∧ FAILED e.hr = true)) := by
  obtain ⟨f, texture, hf, hfl, htx⟩ := hy
  obtain ⟨e, hen⟩ := Encode_total encoder texture capture.GetContext quality s.g_Buffer
    p.encode hp hctx
  have hno := Encode_events_no_frame _ _ _ _ _ _ _ hen
  have hrel : e.events.filter Event.isReleaseFrame = [] := by
    rw [List.filter_eq_nil_iff]
    intro ev hev
    simp [(hno ev hev).1]
  have hacq : e.events.filter Event.isAcquired = [] := by
    rw [List.filter_eq_nil_iff]
    intro ev hev
    simp [(hno ev hev).2.2]
  have hto : f.hr ≠ DXGI_ERROR_WAIT_TIMEOUT := by
    intro h
    rw [FAILED_of_timeout h] at hfl
    cases hfl
  rcases CaptureFrame_spec _ _ _ _ _ hf with ⟨-, rfl⟩ | ⟨d, hd, ht, rfl⟩ | ⟨d, hd, -, hfa, rfl⟩ |
    ⟨d, resource, hd, hfa, -, rfl⟩
  · simp [FAILED_E_POINTER] at hfl
  · exact absurd ht hto
  · rw [hfa] at hfl
    cases hfl
  · have hrcf : capture.ReleaseCurrentFrame = [Event.ReleaseFrame d] := by
      simp [DXGIManager.ReleaseCurrentFrame, hd]
    have h100 : toUINT 100 = 100 := by decide
    cases hef : FAILED e.hr with
    | true =>
      refine ⟨⟨-3, none⟩, ⟨s.g_Capture, s.g_Encoder, e.outData, _⟩, _, texture, e, d, ?_, hf,
        htx, hen, hd, rfl, rfl, rfl, ?_, ?_, Or.inr ⟨rfl, hef⟩⟩
      · simp only [Captured.texture] at htx
        simp [CaptureAndEncode, hc, he, hf, hto, hfl, htx, hen, hef, hrcf,
          List.append_assoc]
      · simp [List.filter_append, hrel, Event.isReleaseFrame]
      · simp [List.filter_append, hacq, Event.isAcquired, SUCCEEDED_eq, hfa, h100]
    | false =>
      refine ⟨⟨1, some (e.outData, toINT e.outData.length)⟩,
        ⟨s.g_Capture, s.g_Encoder, e.outData, _⟩, _, texture, e, d, ?_, hf,
        htx, hen, hd, rfl, rfl, rfl, ?_, ?_, Or.inl ⟨rfl, hef⟩⟩
      · simp only [Captured.texture] at htx
        simp [CaptureAndEncode, hc, he, hf, hto, hfl, htx, hen, hef, hrcf,
          List.append_assoc]
      · simp [List.filter_append, hrel, Event.isReleaseFrame]
      · simp [List.filter_append, hacq, Event.isAcquired, SUCCEEDED_eq, hfa, h100]

/-- `run` on a non-empty sequence of captures. -/
theorem run_captureCalls_cons (c : Int × CapturePlatform)
    (cs : List (Int × CapturePlatform)) (s : Session) :
    run (captureCalls (c :: cs)) s =
      (CaptureAndEncode c.1 c.2 s).bind fun r =>
        (run (captureCalls cs) r.2).map fun rs => (Returned.reply r.1 :: rs.1, rs.2) := by
  unfold captureCalls
  rw [List.map_cons, run_cons]
  cases h : CaptureAndEncode c.1 c.2 s <;> simp [step, h]

/-- A sequence of `CaptureAndEncode` calls whose acquisitions all yield a texture: it
runs to the end, keeps the two objects, and adds as many `ReleaseFrame` calls as frames
were acquired, one per call. -/
theorem captures_release_count (captures : List (Int × CapturePlatform)) (s : Session)
    (capture : DXGIManager) (encoder : WICEncoder)
    (hc : s.g_Capture = some capture) (he : s.g_Encoder = some encoder)
    (hctx : capture.m_context ≠ none)
    (hp : ∀ c ∈ captures, c.2.encode.Honest)
    (hy : ∀ c ∈ captures, ∃ f texture, capture.CaptureFrame none 100 c.2.frame = some f ∧
      FAILED f.hr = false ∧ f.texture = some texture) :
    ∃ rs s1 new, run (captureCalls captures) s = some (rs, s1) ∧
      s1.g_Capture = s.g_Capture ∧ s1.g_Encoder = s.g_Encoder ∧
      s1.trace = s.trace ++ new ∧
      (new.filter Event.isReleaseFrame).length = captures.length ∧
      (new.filter Event.isAcquired).length = captures.length := by
  induction captures generalizing s with
  | nil => exact ⟨[], s, [], rfl, rfl, rfl, by simp, rfl, rfl⟩
  | cons c cs ih =>
    obtain ⟨r, s1, f, texture, e, d, h, -, -, -, -, hc1, he1, htr, hrel, hacq, -⟩ :=
      capture_step c.1 c.2 s capture encoder hc he hctx (hp c (by simp)) (hy c (by simp))
    obtain ⟨rs, s2, new, hrun, hc2, he2, htr2, hrel2, hacq2⟩ :=
      ih s1 (hc1 ▸ hc) (he1 ▸ he) (fun x hx => hp x (by simp [hx]))
        (fun x hx => hy x (by simp [hx]))
    refine ⟨Returned.reply r :: rs, s2, f.events ++ e.events ++ [Event.ReleaseFrame d] ++ new,
      ?_, hc2.trans hc1, he2.trans he1, ?_, ?_, ?_⟩
    · rw [run_captureCalls_cons, h]
      simp [hrun]
    · rw [htr2, htr]
      simp [List.append_assoc]
    · rw [List.filter_append, List.filter_append, hrel, List.length_append, hrel2]
      simp [Event.isReleaseFrame]
      omega
    · rw [List.filter_append, List.filter_append, hacq, List.length_append, hacq2]
      simp [Event.isAcquired]
      omega

/-- C2: over a sequence of `CaptureAndEncode` calls on a session that has its FrameSource
(with a device context) and FrameEncoder, each acquisition yielding a texture and each
`Encode` free to succeed or fail: the calls all return, the platform sees as many
`ReleaseFrame` calls as frames acquired (one per call), and in every single call of the
sequence the calls of `CaptureFrame` and `Encode` contain the one successful
`AcquireNextFrame` and no `ReleaseFrame`, and are followed by exactly one `ReleaseFrame`
on the same duplication, the last platform call before the call returns 1 or -3. -/
theorem C2_release_once_per_frame (captures : List (Int × CapturePlatform)) (s : Session)
    (capture : DXGIManager) (encoder : WICEncoder)
    (hc : s.g_Capture = some capture) (he : s.g_Encoder = some encoder)
    (hctx : capture.m_context ≠ none)
    (hp : ∀ c ∈ captures, c.2.encode.Honest)
    (hy : ∀ c ∈ captures, ∃ f texture, capture.CaptureFrame none 100 c.2.frame = some f ∧
      FAILED f.hr = false ∧ f.texture = some texture) :
    (∃ rs s1 new, run (captureCalls captures) s = some (rs, s1) ∧
      s1.trace = s.trace ++ new ∧
      (new.filter Event.isReleaseFrame).length = captures.length ∧
      (new.filter Event.isAcquired).length = captures.length) ∧
    (∀ before c after, captures = before ++ c :: after →
      ∃ rs0 s0 r s1 f texture e d, run (captureCalls before) s = some (rs0, s0) ∧
        CaptureAndEncode c.1 c.2 s0 = some (r, s1) ∧
        capture.CaptureFrame none 100 c.2.frame = some f ∧ f.texture = some texture ∧
        encoder.Encode texture capture.GetContext c.1 s0.g_Buffer c.2.encode = some e ∧
        capture.m_duplication = some d ∧
        s1.trace = s0.trace ++ f.events ++ e.events ++ [Event.ReleaseFrame d] ∧
        (f.events ++ e.events).filter Event.isReleaseFrame = [] ∧
        (f.events ++ e.events).filter Event.isAcquired =
          [Event.AcquireNextFrame d 100 c.2.frame.AcquireNextFrame.hr] ∧
        ((r.status = 1 ∧ FAILED e.hr = false) ∨ (r.status = -3 ∧ FAILED e.hr = true))) := by
  constructor
  · obtain ⟨rs, s1, new, hrun, -, -, htr, hrel, hacq⟩ :=
      captures_release_count captures s capture encoder hc he hctx hp hy
    exact ⟨rs, s1, new, hrun, htr, hrel, hacq⟩
  · intro before c after hsplit
    subst hsplit
    obtain ⟨rs0, s0, new, hrun, hc0, he0, -, -, -⟩ :=
      captures_release_count before s capture encoder hc he hctx
        (fun x hx => hp x (by simp [hx])) (fun x hx => hy x (by simp [hx]))
    obtain ⟨r, s1, f, texture, e, d, h, hf, htx, hen, hd, -, -, htr, hrel, hacq, hst⟩ :=
      capture_step c.1 c.2 s0 capture encoder (hc0 ▸ hc) (he0 ▸ he) hctx
        (hp c (by simp)) (hy c (by simp))
    exact ⟨rs0, s0, r, s1, f, texture, e, d, hrun, h, hf, htx, hen, hd, htr, hrel, hacq, hst⟩

/-- Worked example of C2: a successful capture followed by one whose `Encode` fails. -/
theorem C2_witness :
    ∃ rs s1 new,
      run (captureCalls [(80, capturePlatform), (80, failingCapturePlatform)]) readySession =
        some (rs, s1) ∧
      s1.trace = readySession.trace ++ new ∧
      (new.filter Event.isReleaseFrame).length = 2 ∧
      (new.filter Event.isAcquired).length = 2 :=
  (C2_release_once_per_frame [(80, capturePlatform), (80, failingCapturePlatform)]
    readySession readyCapture readyEncoder rfl rfl (by decide)
    (by
      intro c hc
      simp only [List.mem_cons, List.mem_singleton, List.not_mem_nil, or_false] at hc
      rcases hc with rfl | rfl
      · exact capturePlatform_honest.2
      · exact failingCapturePlatform_honest.2)
    (by
      intro c hc
      simp only [List.mem_cons, List.mem_singleton, List.not_mem_nil, or_false] at hc
      rcases hc with rfl | rfl
      · exact ⟨_, 31, rfl, by decide, rfl⟩
      · exact ⟨_, 31, rfl, by decide, rfl⟩)).1

/-- `CaptureAndEncode` replaces neither object. -/
theorem CaptureAndEncode_keeps (quality : Int) (p : CapturePlatform) (s s1 : Session)
    (r : Reply) (h : CaptureAndEncode quality p s = some (r, s1)) :
    s1.g_Capture = s.g_Capture ∧ s1.g_Encoder = s.g_Encoder := by
  rcases CaptureAndEncode_spec quality p s s1 r h with
    ⟨-, -, rfl⟩ | ⟨capture, encoder, f, -, -, -, hcase⟩
  · exact ⟨rfl, rfl⟩
  · rcases hcase with ⟨-, -, rfl⟩ | ⟨-, -, -, rfl⟩ | ⟨-, -, _, _, -, -, rfl, -⟩ <;>
      exact ⟨rfl, rfl⟩

/-- A sequence of captures replaces neither object. -/
theorem run_captureCalls_keeps (captures : List (Int × CapturePlatform)) (s s1 : Session)
    (rs : List Returned) (h : run (captureCalls captures) s = some (rs, s1)) :
    s1.g_Capture = s.g_Capture ∧ s1.g_Encoder = s.g_Encoder := by
  induction captures generalizing s s1 rs with
  | nil =>
    simp [captureCalls, run] at h
    rw [← h.2]
    exact ⟨rfl, rfl⟩
  | cons c cs ih =>
    rw [run_captureCalls_cons] at h
    cases hstep : CaptureAndEncode c.1 c.2 s with
    | none => simp [hstep] at h
    | some r =>
      obtain ⟨r1, s0⟩ := r
      cases hrest : run (captureCalls cs) s0 with
      | none => simp [hstep, hrest] at h
      | some rest =>
        obtain ⟨rs1, s2⟩ := rest
        simp [hstep, hrest] at h
        obtain ⟨hk1, hk2⟩ := CaptureAndEncode_keeps _ _ _ _ _ hstep
        obtain ⟨hr1, hr2⟩ := ih s0 s2 rs1 hrest
        rw [← h.2]
        exact ⟨hr1.trans hk1, hr2.trans hk2⟩

/-- `toINT` lands in the range of `int`. -/
theorem toINT_range (x : Int) : -2147483648 ≤ toINT x ∧ toINT x < 2147483648 := by
  unfold toINT
  omega

/-- What a successful `Init` leaves behind: the FrameSource as `Initialize` built it, an
encoder with the same width and height, and a successful `CreateTexture2D` call that
declared them. -/
theorem Init_zero_spec (monitorIndex : Int) (p : InitPlatform) (s0 s1 : Session)
    (h : Init monitorIndex p s0 = some (0, s1)) :
    ∃ c e dev new, DXGIManager.new.Initialize monitorIndex p.dxgi = some c ∧
      FAILED c.hr = false ∧
      s1.g_Capture = some c.self ∧ s1.g_Encoder = some e ∧
      e.m_width = c.self.GetWidth ∧ e.m_height = c.self.GetHeight ∧
      s1.trace = s0.trace ++ new ∧
      Event.CreateTexture2D dev (toUINT c.self.GetWidth) (toUINT c.self.GetHeight)
        p.wic.CreateTexture2D.hr ∈ new ∧
      FAILED p.wic.CreateTexture2D.hr = false := by
  unfold Init at h
  cases hc : DXGIManager.new.Initialize monitorIndex p.dxgi with
  | none => simp [hc] at h
  | some c =>
  cases hf : FAILED c.hr with
  | true => simp [hc, hf] at h
  | false =>
  cases he : WICEncoder.new.Initialize c.self.GetDevice c.self.GetWidth c.self.GetHeight
      p.wic with
  | none => simp [hc, hf, he] at h
  | some e =>
  cases hfe : FAILED e.hr with
  | true => simp [hc, hf, he, hfe] at h
  | false =>
    simp [hc, hf, he, hfe] at h
    obtain ⟨hw, hh, -, hbad, hok⟩ := WICInitialize_spec _ _ _ _ _ _ he
    cases hco : FAILED p.wic.CoCreateInstance.hr with
    | true =>
      have := (hbad hco).1
      rw [this, hco] at hfe
      cases hfe
    | false =>
      obtain ⟨dev, -, hhr, -, hev⟩ := hok hco
      refine ⟨c, e.self, dev, resetCapture s0.g_Capture ++ c.events ++ [Event.CoInitialize] ++
        resetEncoder s0.g_Encoder ++ e.events, rfl, hf, ?_, ?_, hw, hh, ?_, ?_, ?_⟩
      · rw [← h]
      · rw [← h]
      · rw [← h]
        simp [List.append_assoc]
      · simp [hev]
      · rw [← hhr]
        exact hfe

/-- C9: in a session whose `Init` returned 0, after any number of `CaptureAndEncode`
calls, a `CaptureAndEncode` that returns 1 has declared to the codec (`SetSize`) the width
and height the FrameSource resolved at `Init`, as `UINT` values, and after that (and
`SetPixelFormat`) has written as many pixel rows as that height; `Init` created the
staging surface with the same width and height.  The `UINT` values are the resolved width and height themselves whenever these
are not negative. -/
theorem C9_encoded_dimensions (monitorIndex : Int) (pI : InitPlatform) (s0 s1 : Session)
    (hI : Init monitorIndex pI s0 = some (0, s1))
    (captures : List (Int × CapturePlatform)) (rs : List Returned) (s2 : Session)
    (hrun : run (captureCalls captures) s1 = some (rs, s2))
    (quality : Int) (p : CapturePlatform) (r : Reply) (s3 : Session)
    (h : CaptureAndEncode quality p s2 = some (r, s3)) (hok : r.status = 1) :
    ∃ c dev frame newInit before after,
      DXGIManager.new.Initialize monitorIndex pI.dxgi = some c ∧
      s2.g_Capture = some c.self ∧
      s1.trace = s0.trace ++ newInit ∧
      Event.CreateTexture2D dev (toUINT c.self.GetWidth) (toUINT c.self.GetHeight)
        pI.wic.CreateTexture2D.hr ∈ newInit ∧
      FAILED pI.wic.CreateTexture2D.hr = false ∧
      s3.trace = s2.trace ++ before ++
        [Event.SetSize frame (toUINT c.self.GetWidth) (toUINT c.self.GetHeight)
           p.encode.SetSize,
         Event.SetPixelFormat frame p.encode.SetPixelFormat,
         Event.WritePixels frame (toUINT c.self.GetHeight) p.encode.RowPitch
           (toUINT (p.encode.RowPitch * c.self.GetHeight)) p.encode.WritePixels] ++ after ∧
      FAILED p.encode.SetSize = false ∧
      FAILED p.encode.WritePixels = false ∧
      (0 ≤ c.self.GetWidth → toUINT c.self.GetWidth = c.self.GetWidth) ∧
      (0 ≤ c.self.GetHeight → toUINT c.self.GetHeight = c.self.GetHeight) := by
  obtain ⟨c, e, dev, newInit, hc, hcf, hcap, henc, hw, hh, htr, hct, hcs⟩ :=
    Init_zero_spec monitorIndex pI s0 s1 hI
  obtain ⟨hk1, hk2⟩ := run_captureCalls_keeps captures s1 s2 rs hrun
  rw [hcap] at hk1
  rw [henc] at hk2
  have hdims : ∃ x y, c.self.GetWidth = toINT x ∧ c.self.GetHeight = toINT y := by
    unfold DXGIManager.Initialize DXGIManager.new at hc
    dsimp only at hc
    (repeat' split at hc) <;> cases hc <;>
      simp_all [FAILED_E_FAIL, DXGIManager.GetWidth, DXGIManager.GetHeight]
  obtain ⟨x, y, hx, hy⟩ := hdims
  have hwr : 0 ≤ c.self.GetWidth → toUINT c.self.GetWidth = c.self.GetWidth := by
    intro h0
    have := toINT_range x
    rw [← hx] at this
    unfold toUINT
    omega
  have hhr : 0 ≤ c.self.GetHeight → toUINT c.self.GetHeight = c.self.GetHeight := by
    intro h0
    have := toINT_range y
    rw [← hy] at this
    unfold toUINT
    omega
  rcases CaptureAndEncode_spec quality p s2 s3 r h with
    ⟨-, rfl, -⟩ | ⟨capture, encoder, f, hc2, he2, -, hcase⟩
  · cases hok
  rw [hk1] at hc2
  rw [hk2] at he2
  cases hc2
  cases he2
  rcases hcase with ⟨-, rfl, -⟩ | ⟨-, -, rfl, -⟩ |
    ⟨-, -, texture, en, -, hen, hs3, (⟨-, rfl⟩ | ⟨hef, rfl⟩)⟩
  · cases hok
  · cases hok
  · cases hok
  rcases Encode_spec _ _ _ _ _ _ _ hen with
    ⟨-, rfl⟩ | ⟨_, _, -, -, -, hm, rfl⟩ |
    ⟨staging, ctx, codec, tail, -, -, -, -, hev, -, -, -, hd⟩
  · rw [FAILED_E_FAIL] at hef
    cases hef
  · rw [hm] at hef
    cases hef
  obtain ⟨frame, encoder, pre, hcodec, h2, h4⟩ := hd hef
  simp only [hw, hh] at hcodec
  refine ⟨c, dev, frame, newInit,
    f.events ++ [Event.CopyResource ctx staging texture, Event.Map ctx staging p.encode.Map] ++
      pre,
    [Event.FrameCommit frame p.encode.FrameCommit,
      Event.EncoderCommit encoder p.encode.EncoderCommit, Event.Unmap ctx staging] ++ tail ++
      c.self.ReleaseCurrentFrame,
    hc, hk1, htr, hct, hcs, ?_, h2, h4, hwr, hhr⟩
  rw [hs3]
  simp [hev, hcodec, List.append_assoc]

/-- Worked example of C9: `Init 0`, a capture whose `Encode` fails, a capture that
succeeds. -/
theorem C9_witness :
    ∃ c dev frame newInit before after,
      DXGIManager.new.Initialize 0 readyPlatform.dxgi = some c ∧
      (sessionAfter (captureCalls [(80, failingCapturePlatform)]) readySession).g_Capture =
        some c.self ∧
      readySession.trace = Session.initial.trace ++ newInit ∧
      Event.CreateTexture2D dev (toUINT c.self.GetWidth) (toUINT c.self.GetHeight)
        readyPlatform.wic.CreateTexture2D.hr ∈ newInit ∧
      FAILED readyPlatform.wic.CreateTexture2D.hr = false ∧
      (sessionAfter (captureCalls [(80, failingCapturePlatform), (80, capturePlatform)])
        readySession).trace =
        (sessionAfter (captureCalls [(80, failingCapturePlatform)]) readySession).trace ++
          before ++
        [Event.SetSize frame (toUINT c.self.GetWidth) (toUINT c.self.GetHeight)
           capturePlatform.encode.SetSize,
         Event.SetPixelFormat frame capturePlatform.encode.SetPixelFormat,
         Event.WritePixels frame (toUINT c.self.GetHeight) capturePlatform.encode.RowPitch
           (toUINT (capturePlatform.encode.RowPitch * c.self.GetHeight))
           capturePlatform.encode.WritePixels] ++ after ∧
      FAILED capturePlatform.encode.SetSize = false ∧
      FAILED capturePlatform.encode.WritePixels = false ∧
      (0 ≤ c.self.GetWidth → toUINT c.self.GetWidth = c.self.GetWidth) ∧
      (0 ≤ c.self.GetHeight → toUINT c.self.GetHeight = c.self.GetHeight) :=
  C9_encoded_dimensions 0 readyPlatform Session.initial readySession Init_readyPlatform
    [(80, failingCapturePlatform)] [.reply ⟨-3, none⟩]
    (sessionAfter (captureCalls [(80, failingCapturePlatform)]) readySession) rfl
    80 capturePlatform ⟨1, some ([255, 216, 255], 3)⟩
    (sessionAfter (captureCalls [(80, failingCapturePlatform), (80, capturePlatform)])
      readySession) rfl rfl

/-! ### Frames left outstanding -/

/-- C3: the conversion of an acquired resource to a texture fails.  On a FrameSource with
a bound duplication handle, `AcquireNextFrame` succeeds and `QueryInterface` fails with
`E_NOINTERFACE`: `CaptureFrame` returns that failure (not the timeout) having called no
`ReleaseFrame`, and the frame is outstanding. -/
theorem C3_texture_failure_not_released :
    readyCapture.CaptureFrame none 100 lostTexturePlatform.frame =
      some ⟨-2147467262, none,
        [Event.AcquireNextFrame 7 100 0, Event.QueryTexture 30 (-2147467262)]⟩ ∧
    readyCapture.m_duplication = some 7 ∧
    FAILED (-2147467262) = true ∧ (-2147467262 : HRESULT) ≠ DXGI_ERROR_WAIT_TIMEOUT ∧
    [Event.AcquireNextFrame 7 100 0, Event.QueryTexture 30 (-2147467262)].filter
      Event.isReleaseFrame = [] ∧
    frameOutstanding 7
      [Event.AcquireNextFrame 7 100 0, Event.QueryTexture 30 (-2147467262)] = true := by
  refine ⟨rfl, rfl, by decide, by decide, by decide, by decide⟩

/-- C4: a frame is left outstanding and the next acquisition is made on top of it.
After `Init`, a `CaptureAndEncode` whose texture conversion fails returns -2 with the
frame of duplication 7 outstanding; the next `CaptureAndEncode` calls `AcquireNextFrame`
on duplication 7 as its first platform call. -/
theorem C4_frame_outstanding_on_return :
    run [Call.Init 0 readyPlatform, Call.CaptureAndEncode 80 lostTexturePlatform]
        Session.initial =
      some ([.status 0, .reply ⟨-2, none⟩],
        ⟨some readyCapture, some readyEncoder, [],
          readySession.trace ++
            [Event.AcquireNextFrame 7 100 0, Event.QueryTexture 30 (-2147467262)]⟩) ∧
    frameOutstanding 7 (readySession.trace ++
      [Event.AcquireNextFrame 7 100 0, Event.QueryTexture 30 (-2147467262)]) = true ∧
    ((CaptureAndEncode 80 capturePlatform
        ⟨some readyCapture, some readyEncoder, [],
          readySession.trace ++
            [Event.AcquireNextFrame 7 100 0, Event.QueryTexture 30 (-2147467262)]⟩).map
      fun r => (r.1.status, (r.2.trace.drop (readySession.trace.length + 2)).head?)) =
      some (1, some (Event.AcquireNextFrame 7 100 0)) :=
  ⟨rfl, by decide, by decide⟩

/-! ### Lifecycle -/

/-- Which pointers `Init` sets, by status. -/
theorem Init_objects (monitorIndex : Int) (p : InitPlatform) (s s1 : Session) (status : Int)
    (h : Init monitorIndex p s = some (status, s1)) :
    s1.g_Capture ≠ none ∧
    ((status = -1 ∧ s1.g_Encoder = s.g_Encoder) ∨
      ((status = -2 ∨ status = 0) ∧ s1.g_Encoder ≠ none)) := by
  unfold Init at h
  cases hc : DXGIManager.new.Initialize monitorIndex p.dxgi with
  | none => simp [hc] at h
  | some c =>
  cases hf : FAILED c.hr with
  | true =>
    simp [hc, hf] at h
    obtain ⟨rfl, rfl⟩ := h
    exact ⟨by simp, Or.inl ⟨rfl, rfl⟩⟩
  | false =>
  cases he : WICEncoder.new.Initialize c.self.GetDevice c.self.GetWidth c.self.GetHeight
      p.wic with
  | none => simp [hc, hf, he] at h
  | some e =>
  cases hfe : FAILED e.hr with
  | true =>
    simp [hc, hf, he, hfe] at h
    obtain ⟨rfl, rfl⟩ := h
    exact ⟨by simp, Or.inr ⟨Or.inl rfl, by simp⟩⟩
  | false =>
    simp [hc, hf, he, hfe] at h
    obtain ⟨rfl, rfl⟩ := h
    exact ⟨by simp, Or.inr ⟨Or.inr rfl, by simp⟩⟩

/-- The encoder pointer is non-null after a run exactly when `encoderBuilt` says so, and
then the capture pointer is non-null too. -/
theorem run_encoderBuilt (calls : List Call) (s s1 : Session) (rets : List Returned)
    (hinv : s.g_Encoder ≠ none → s.g_Capture ≠ none)
    (h : run calls s = some (rets, s1)) :
    (s1.g_Encoder.isSome = encoderBuilt s.g_Encoder.isSome rets) ∧
    (s1.g_Encoder ≠ none → s1.g_Capture ≠ none) := by
  induction calls generalizing s s1 rets with
  | nil =>
    simp [run] at h
    obtain ⟨rfl, rfl⟩ := h
    exact ⟨rfl, hinv⟩
  | cons c cs ih =>
    rw [run_cons] at h
    cases hstep : step c s with
    | none => simp [hstep] at h
    | some r =>
      obtain ⟨ret, s0⟩ := r
      cases hrest : run cs s0 with
      | none => simp [hstep, hrest] at h
      | some rest =>
        obtain ⟨rets0, s2⟩ := rest
        simp [hstep, hrest] at h
        obtain ⟨rfl, rfl⟩ := h
        have key : (s0.g_Encoder ≠ none → s0.g_Capture ≠ none) ∧
            encoderBuilt s.g_Encoder.isSome (ret :: rets0) =
              encoderBuilt s0.g_Encoder.isSome rets0 := by
          cases c with
          | Init monitorIndex p =>
            cases hi : Init monitorIndex p s with
            | none => simp [step, hi] at hstep
            | some r =>
              simp [step, hi] at hstep
              obtain ⟨rfl, rfl⟩ := hstep
              obtain ⟨hcap, hcase⟩ := Init_objects monitorIndex p s r.2 r.1 hi
              refine ⟨fun _ => hcap, ?_⟩
              rcases hcase with ⟨hst, henc⟩ | ⟨hst, henc⟩
              · simp [encoderBuilt, hst, henc]
              · obtain ⟨e, he⟩ := Option.ne_none_iff_exists'.mp henc
                rcases hst with hst | hst <;> simp [encoderBuilt, hst, he]
          | CaptureAndEncode quality p =>
            cases hi : CaptureAndEncode quality p s with
            | none => simp [step, hi] at hstep
            | some r =>
              simp [step, hi] at hstep
              obtain ⟨rfl, rfl⟩ := hstep
              obtain ⟨hk1, hk2⟩ := CaptureAndEncode_keeps quality p s r.2 r.1 hi
              rw [hk1, hk2]
              exact ⟨hinv, by simp [encoderBuilt]⟩
          | Release =>
            simp [step] at hstep
            obtain ⟨rfl, rfl⟩ := hstep
            simp [encoderBuilt, Release]
        obtain ⟨h1, h2⟩ := ih s0 s2 rets0 key.1 hrest
        exact ⟨by rw [h1, key.2], h2⟩

/-- After an `Init` that returned 0 the encoder is built. -/
theorem encoderBuilt_append_zero (b : Bool) (rets : List Returned) :
    encoderBuilt b (rets ++ [.status 0]) = true := by
  induction rets generalizing b with
  | nil => simp [encoderBuilt]
  | cons r rs ih => cases r <;> simp [encoderBuilt, ih]

/-- C10 as amended: after any sequence of `Init`, `CaptureAndEncode` and `Release` calls
from the load-time state, `CaptureAndEncode` returns -1 exactly when no `Init` since the
last `Release` (or since load) has returned 0 or -2.  In that case it makes no platform
call and leaves the session as it is; otherwise it is let past the guard and never
returns -1.  In particular it is let past the guard when the last call was an `Init`
that returned 0. -/
theorem C10_not_initialised_amended (calls : List Call) (rets : List Returned)
    (s : Session) (hrun : run calls Session.initial = some (rets, s))
    (quality : Int) (p : CapturePlatform) :
    (encoderBuilt false rets = false →
      CaptureAndEncode quality p s = some (⟨-1, none⟩, s)) ∧
    (encoderBuilt false rets = true →
      ∀ r s1, CaptureAndEncode quality p s = some (r, s1) → r.status ≠ -1) ∧
    (∀ r s1, CaptureAndEncode quality p s = some (r, s1) →
      (r.status = -1 ↔ encoderBuilt false rets = false)) ∧
    (∀ earlier, rets = earlier ++ [.status 0] → encoderBuilt false rets = true) := by
  obtain ⟨hb, hinv⟩ := run_encoderBuilt calls Session.initial s rets
    (by simp [Session.initial]) hrun
  simp only [Session.initial, Option.isSome_none] at hb
  have hpass : encoderBuilt false rets = true →
      ∀ r s1, CaptureAndEncode quality p s = some (r, s1) → r.status ≠ -1 := by
    intro hbuilt r s1 h
    rw [← hb] at hbuilt
    have henc : s.g_Encoder ≠ none := by
      intro hn
      rw [hn] at hbuilt
      cases hbuilt
    rcases CaptureAndEncode_spec quality p s s1 r h with
      ⟨hnone, -⟩ | ⟨_, _, _, -, -, -, hcase⟩
    · rcases hnone with hn | hn
      · exact absurd hn (hinv henc)
      · exact absurd hn henc
    · rcases hcase with ⟨-, rfl, -⟩ | ⟨-, -, rfl, -⟩ |
        ⟨-, -, _, _, -, -, -, (⟨-, rfl⟩ | ⟨-, rfl⟩)⟩ <;> simp
  have hreject : encoderBuilt false rets = false →
      CaptureAndEncode quality p s = some (⟨-1, none⟩, s) := by
    intro hbuilt
    rw [← hb] at hbuilt
    have henc : s.g_Encoder = none := by
      cases he : s.g_Encoder with
      | none => rfl
      | some e => simp [he] at hbuilt
    unfold CaptureAndEncode
    cases hc : s.g_Capture <;> simp [henc]
  refine ⟨hreject, hpass, ?_, fun earlier he => he ▸ encoderBuilt_append_zero false earlier⟩
  intro r s1 h
  cases hbuilt : encoderBuilt false rets with
  | false =>
    rw [hreject hbuilt] at h
    simp only [Option.some.injEq, Prod.mk.injEq] at h
    rw [← h.1]
    simp
  | true => simp [hpass hbuilt r s1 h]

/-- Worked example of C10 as amended: `Init`, `Release`, then an `Init` that returns -1. -/
theorem C10_witness :
    CaptureAndEncode 80 capturePlatform
        (sessionAfter [Call.Init 0 readyPlatform, Call.Release, Call.Init 0 noDevicePlatform]
          Session.initial) =
      some (⟨-1, none⟩,
        sessionAfter [Call.Init 0 readyPlatform, Call.Release, Call.Init 0 noDevicePlatform]
          Session.initial) :=
  (C10_not_initialised_amended
    [Call.Init 0 readyPlatform, Call.Release, Call.Init 0 noDevicePlatform]
    [.status 0, .void, .status (-1)] _ rfl 80 capturePlatform).1 (by decide)

/-- C10 as stated fails: (a) a first `Init` that returns -2 leaves both objects in place,
and the next `CaptureAndEncode` acquires a frame and returns -3, not -1; (b) an `Init`
that returns -1 on a Ready session leaves the old encoder in place, and the next
`CaptureAndEncode` returns -2, not -1. -/
theorem C10_counterexample :
    ((run [Call.Init 0 noStagingPlatform, Call.CaptureAndEncode 80 capturePlatform]
        Session.initial).map fun r =>
          (r.1, decide (Event.AcquireNextFrame 7 100 0 ∈ r.2.trace))) =
      some ([.status (-2), .reply ⟨-3, none⟩], true) ∧
    ((run [Call.Init 0 readyPlatform, Call.Init 0 noDevicePlatform,
          Call.CaptureAndEncode 80 capturePlatform] Session.initial).map fun r => r.1) =
      some [.status 0, .status (-1), .reply ⟨-2, none⟩] :=
  ⟨by decide, by decide⟩

/-- On platforms that keep the COM contract, every FrameSource a session can hold is
`Bound`: the precondition of the capture theorems holds in every reachable session. -/
theorem run_bound (calls : List Call) (s s1 : Session) (rets : List Returned)
    (hp : ∀ c ∈ calls, c.Honest)
    (hs : ∀ capture, s.g_Capture = some capture → capture.Bound)
    (h : run calls s = some (rets, s1)) :
    ∀ capture, s1.g_Capture = some capture → capture.Bound := by
  induction calls generalizing s s1 rets with
  | nil =>
    simp [run] at h
    obtain ⟨-, rfl⟩ := h
    exact hs
  | cons c cs ih =>
    rw [run_cons] at h
    cases hstep : step c s with
    | none => simp [hstep] at h
    | some r =>
      obtain ⟨ret, s0⟩ := r
      cases hrest : run cs s0 with
      | none => simp [hstep, hrest] at h
      | some rest =>
        obtain ⟨rets0, s2⟩ := rest
        simp [hstep, hrest] at h
        obtain ⟨-, rfl⟩ := h
        refine ih s0 s2 rets0 (fun x hx => hp x (by simp [hx])) ?_ hrest
        have hc : c.Honest := hp c (by simp)
        cases c with
        | Init monitorIndex p =>
          cases hi : Init monitorIndex p s with
          | none => simp [step, hi] at hstep
          | some r =>
            simp [step, hi] at hstep
            obtain ⟨-, rfl⟩ := hstep
            obtain ⟨st, s3⟩ := r
            intro capture hcap hdup
            unfold Init at hi
            cases hini : DXGIManager.new.Initialize monitorIndex p.dxgi with
            | none => simp [hini] at hi
            | some o =>
              obtain ⟨-, hctx, -, hdev, -⟩ := Initialize_new_spec monitorIndex p.dxgi o hini
              have hself : capture = o.self := by
                cases hf : FAILED o.hr with
                | true =>
                  simp [hini, hf] at hi
                  obtain ⟨-, rfl⟩ := hi
                  simp at hcap
                  exact hcap.symm
                | false =>
                  cases he : WICEncoder.new.Initialize o.self.GetDevice o.self.GetWidth
                      o.self.GetHeight p.wic with
                  | none => simp [hini, hf, he] at hi
                  | some e =>
                    cases hfe : FAILED e.hr <;> simp [hini, hf, he, hfe] at hi <;>
                      obtain ⟨-, rfl⟩ := hi <;> simp at hcap <;> exact hcap.symm
              subst hself
              rw [hctx]
              exact (hc.1 (hdev hdup)).2
        | CaptureAndEncode quality p =>
          cases hi : CaptureAndEncode quality p s with
          | none => simp [step, hi] at hstep
          | some r =>
            simp [step, hi] at hstep
            obtain ⟨-, rfl⟩ := hstep
            rw [(CaptureAndEncode_keeps quality p s r.2 r.1 hi).1]
            exact hs
        | Release =>
          simp [step] at hstep
          obtain ⟨-, rfl⟩ := hstep
          simp [Release]

end Remotier
